import Mathlib

/-!
# Pharma-Assistant-AI forecasting core: a shallow embedding

This file embeds the forecasting decision pipeline of the repository
(`forecasting/model_selector.py`, `forecasting/evaluator.py`,
`forecasting/feature_engineering.py`, the four model adapters under
`models/`, and the orchestration logic of `routes/forecast_routes.py`)
and proves the specification claims about it.

Conventions of the embedding:
* Python floats are embedded as rationals (`ℚ`); `None`/`NaN` cells as
  `Option ℚ` with `none` standing for a missing value.
* Python's `round(x, 2)` and `f"{x:.2f}"` round half to even; we embed
  that rounding exactly on rationals.
* The external statistical libraries (Prophet, XGBoost, statsmodels
  SARIMAX) are opaque numerical fitters; the adapters are embedded
  parametrically over an abstract fitted model, keeping every line of
  repository code (year filter, row-count guards, clipping, retry and
  error construction) concrete.
-/

namespace Pharma

/-- Arithmetic mean of a list of rationals (`np.mean`); `0` on the empty
list (numpy would return NaN there; every use below guards emptiness). -/
def mean (l : List ℚ) : ℚ := l.sum / l.length

/-- Round a rational to the nearest integer, ties to even: the rounding
Python's `round` and `format` use. -/
def roundHalfEven (x : ℚ) : ℤ :=
  if x - ⌊x⌋ < 1/2 then ⌊x⌋
  else if 1/2 < x - ⌊x⌋ then ⌊x⌋ + 1
  else if ⌊x⌋ % 2 = 0 then ⌊x⌋ else ⌊x⌋ + 1

/-- Python's `round(x, 2)`: round to two decimal places, half to even. -/
def round2 (x : ℚ) : ℚ := (roundHalfEven (100 * x) : ℚ) / 100

/-- Nearest integer to `100 * sqrt q` (for `0 ≤ q`), ties to even; this is
the integer `k` such that Python's `round(math.sqrt(q), 2) = k / 100`.
Computed exactly with integer square roots: with `10000*q = a/b`,
`⌊2·sqrt(10000·q)⌋ = ⌊Nat.sqrt (4*a*b) / b⌋`, and the nearest integer to
`x` is `⌊(2x+1)/2⌋` except at exact half-integer ties. -/
def sqrtNearestNat (a b : ℕ) : ℕ :=
  let f2 : ℕ := Nat.sqrt (4 * a * b) / b
  if 4 * a = f2 * f2 * b ∧ f2 % 2 = 1 then
    -- `2·sqrt(a/b)` is exactly the odd integer `f2`: a half tie
    if ((f2 - 1) / 2) % 2 = 0 then (f2 - 1) / 2 else (f2 + 1) / 2
  else (f2 + 1) / 2

def sqrtNearest100 (q : ℚ) : ℤ :=
  sqrtNearestNat (10000 * q).num.toNat (10000 * q).den

/-- `round(sqrt q, 2)` as a rational, for `0 ≤ q`. -/
def roundSqrt2 (q : ℚ) : ℚ := (sqrtNearest100 q : ℚ) / 100

/-- Render a nonnegative rational that is an integer multiple of `1/100`
with exactly two decimal places, as Python's `f"{x:.2f}"` does after
rounding. `k` is the value scaled by 100. -/
def fmt2 (k : ℕ) : String :=
  toString (k / 100) ++ "." ++
    (if k % 100 < 10 then "0" ++ toString (k % 100) else toString (k % 100))

/-- Python's `sep.join(parts)`. -/
def pyJoin (sep : String) : List String → String
  | [] => ""
  | [x] => x
  | x :: y :: xs => x ++ sep ++ pyJoin sep (y :: xs)

/-! ## `forecasting/model_selector.py` -/

/-- `CATEGORY_TYPE_MAP`: raw (lower-cased) category string → logical type. -/
def CATEGORY_TYPE_MAP : List (String × String) :=
  [("cefixime", "antibiotic"),
   ("omeprazole", "gastro"),
   ("diclofenac sodium", "acute"),
   ("escitalopram", "chronic"),
   ("empagliflozin", "chronic"),
   ("dapagliflozin", "chronic"),
   ("sitagliptin", "chronic")]

/-- `TYPE_MODEL_MAP`: logical type → primary model name. -/
def TYPE_MODEL_MAP : List (String × String) :=
  [("antibiotic", "sarimax"),
   ("gastro", "prophet"),
   ("acute", "xgboost"),
   ("chronic", "prophet"),
   ("other", "xgboost")]

/-- `TYPE_FALLBACK_MAP`: logical type → ordered fallback model list. -/
def TYPE_FALLBACK_MAP : List (String × List String) :=
  [("antibiotic", ["prophet", "xgboost"]),
   ("gastro", ["hybrid", "xgboost"]),
   ("acute", ["hybrid", "prophet"]),
   ("chronic", ["sarimax", "xgboost"]),
   ("other", ["prophet", "sarimax"])]

/-- `dict.get(k, default)` on an association list. -/
def dictGet (m : List (String × α)) (k : String) (dflt : α) : α :=
  match m.find? (fun p => p.1 = k) with
  | some p => p.2
  | none => dflt

/-- ASCII lower-casing of one character (every key of
`CATEGORY_TYPE_MAP` is ASCII, so this agrees with Python's `str.lower`
wherever a lookup can succeed). -/
def asciiLower (c : Char) : Char :=
  if 'A' ≤ c ∧ c ≤ 'Z' then Char.ofNat (c.toNat + 32) else c

/-- Python `str.lower()` (ASCII case mapping). -/
def pyLower (s : String) : String := ⟨s.data.map asciiLower⟩

/-- The whitespace characters `str.strip()` removes (the ASCII ones;
Python also strips a handful of Unicode space characters, which never
occur in the category table's keys). -/
def isPySpace (c : Char) : Bool := c = ' ' ∨ c = '\t' ∨ c = '\n' ∨ c = '\r' ∨ c = '\x0b' ∨ c = '\x0c'

/-- Python `str.strip()`: drop leading and trailing whitespace. -/
def pyStrip (s : String) : String :=
  ⟨((s.data.dropWhile isPySpace).reverse.dropWhile isPySpace).reverse⟩

/-- `get_category_type(category)`: resolve a raw category string to a
logical type; falsy (empty) input short-circuits to `"other"`. -/
def get_category_type (category : String) : String :=
  if category = "" then "other"
  else
    let cat_clean := pyStrip (pyLower category)
    dictGet CATEGORY_TYPE_MAP cat_clean "other"

/-- The closed set of valid explicit model names in `select_model`. -/
def validModels : List String := ["prophet", "xgboost", "sarimax", "hybrid"]

/-- `select_model(category, override)`.  A non-falsy override other than
`"auto"` is validated against `validModels` and returned verbatim, or the
`ValueError` is raised (embedded as `.error`; Python appends the valid
set, whose textual order is unspecified, so the message is embedded up to
that suffix).  Otherwise the category is resolved through
`get_category_type` and `TYPE_MODEL_MAP`. -/
def select_model (category : String) (override : String) : Except String String :=
  if override ≠ "" ∧ override ≠ "auto" then
    if override ∈ validModels then .ok override
    else .error ("Invalid model override '" ++ override ++ "'. Choose from the valid set")
  else
    let cat_type := get_category_type category
    .ok (dictGet TYPE_MODEL_MAP cat_type "xgboost")

/-- `get_fallback_list(category)`. -/
def get_fallback_list (category : String) : List String :=
  let cat_type := get_category_type category
  dictGet TYPE_FALLBACK_MAP cat_type ["prophet", "xgboost"]

/-! ## `forecasting/evaluator.py` -/

/-- The result record of `calculate_metrics`: MAE and RMSE rounded to two
decimals, MAPE as a formatted percentage string or `"N/A"`. -/
structure MetricsR where
  MAE : ℚ
  RMSE : ℚ
  MAPE : String
deriving Repr, DecidableEq

/-- The `pairs` list of `calculate_metrics`: positional pairs whose
actual is present (`None`/NaN both embedded as `none`). -/
def keptPairs (actual : List (Option ℚ)) (predicted : List ℚ) : List (ℚ × ℚ) :=
  (actual.zip predicted).filterMap fun ap =>
    match ap.1 with
    | some a => some (a, ap.2)
    | none => none

/-- `calculate_metrics(actual, predicted)`: pair positionally, drop pairs
whose actual is missing (`None`/NaN, both embedded as `none`), and
compute MAE, RMSE and MAPE exactly as the numpy code does, including the
two-decimal rounding of `round(., 2)` and the `"{:.2f}%"` formatting. -/
def calculate_metrics (actual : List (Option ℚ)) (predicted : List ℚ) : MetricsR :=
  let pairs : List (ℚ × ℚ) := keptPairs actual predicted
  if pairs = [] then ⟨0, 0, "N/A"⟩
  else
    let actuals := pairs.map Prod.fst
    let preds := pairs.map Prod.snd
    let mae := mean ((actuals.zipWith (fun a p => |a - p|) preds))
    let mse := mean ((actuals.zipWith (fun a p => (a - p) ^ 2) preds))
    let nonzero := pairs.filter fun ap => ap.1 ≠ 0
    let mapeStr :=
      if nonzero.length > 0 then
        fmt2 (roundHalfEven (100 *
          (mean (nonzero.map fun ap => |(ap.1 - ap.2) / ap.1|) * 100))).toNat ++ "%"
      else "N/A"
  ⟨round2 mae, roundSqrt2 mse, mapeStr⟩

/-! ## `forecasting/feature_engineering.py` — historical rolling features

`build_features` computes, among others,
`df["units_sold"].shift(1).rolling(window).mean()` (and `.std()`) for
`window ∈ {3, 6, 12}`.  We embed the pandas semantics: `shift(1)` moves
every value down one row with a missing cell at row 0, and
`rolling(w)` at row `i` looks at the `min (i+1) w` cells ending at row
`i`, producing a value only when `w` non-missing cells are present
(the default `min_periods = w`). -/

/-- pandas `Series.shift(1)` on a fully-populated series. -/
def pdShift1 (l : List ℚ) : List (Option ℚ) :=
  match l with
  | [] => []
  | _ :: _ => none :: (l.dropLast.map some)

/-- The rolling window of width `w` ending at row `i`. -/
def pdWindow (s : List (Option ℚ)) (w i : ℕ) : List (Option ℚ) :=
  (s.take (i + 1)).drop (i + 1 - w)

/-- pandas `Series.rolling(w).mean()` with default `min_periods = w`. -/
def pdRollingMean (s : List (Option ℚ)) (w : ℕ) : List (Option ℚ) :=
  (List.range s.length).map fun i =>
    let vals := (pdWindow s w i).filterMap id
    if vals.length = w then some (mean vals) else none

/-- pandas `Series.rolling(w).std()` (sample standard deviation,
`ddof = 1`), represented by its square — the sample variance — since the
square root of a rational is irrational in general.  A cell is defined
here exactly when the `.std()` cell is defined, and it is `0` exactly
when the `.std()` cell is `0`. -/
def pdRollingVar (s : List (Option ℚ)) (w : ℕ) : List (Option ℚ) :=
  (List.range s.length).map fun i =>
    let vals := (pdWindow s w i).filterMap id
    if vals.length = w then
      some (((vals.map (fun x => (x - mean vals) ^ 2)).sum) / (w - 1))
    else none

/-- `build_features`' column `rolling_mean_w` over the `units_sold`
series: `units_sold.shift(1).rolling(w).mean()`. -/
def hist_rolling_mean (units : List ℚ) (w : ℕ) : List (Option ℚ) :=
  pdRollingMean (pdShift1 units) w

/-- `build_features`' column `rolling_std_w` (squared):
`units_sold.shift(1).rolling(w).std()`, squared. -/
def hist_rolling_var (units : List ℚ) (w : ℕ) : List (Option ℚ) :=
  pdRollingVar (pdShift1 units) w

/-! ## `forecasting/feature_engineering.py` — `build_future_features`

The future builder keeps a `history` list seeded with
`last_known_values`; for each future month it reads lags and rolling
statistics off `history` and then appends the row's own `rolling_mean_3`
value as a synthetic placeholder.  Calendar fields, seasonal flags and
external-feature defaults of the future rows do not interact with the
`history` buffer and are omitted from the row record here. -/

/-- `history[-lag]` — `np.nan` (here `none`) when the buffer is shorter
than `lag`.  (`lag ≥ 1` at every call site: `lag ∈ {1,2,3,6,12}`.) -/
def futLag (h : List ℚ) (lag : ℕ) : Option ℚ :=
  if h.length < lag then none else h.get? (h.length - lag)

/-- `np.mean(history[-window:]) if len(history) >= window else
(np.mean(history) if history else 0)`. -/
def futRollingMean (h : List ℚ) (w : ℕ) : ℚ :=
  if w ≤ h.length then mean (h.drop (h.length - w))
  else if h ≠ [] then mean h else 0

/-- `np.std(history[-window:]) if len(history) >= window else 0`,
represented by its square (population variance, numpy `ddof = 0`);
it is `0` exactly when the `np.std` value is `0`. -/
def futRollingVar (h : List ℚ) (w : ℕ) : ℚ :=
  if w ≤ h.length then
    let win := h.drop (h.length - w)
    mean (win.map fun x => (x - mean win) ^ 2)
  else 0

/-- The units-derived features of one future row, as functions of the
lag offset / window width. -/
structure FutRow where
  lag : ℕ → Option ℚ
  rolling_mean : ℕ → ℚ
  rolling_var : ℕ → ℚ

/-- The future row read off a given `history` buffer. -/
def futRow (h : List ℚ) : FutRow :=
  ⟨futLag h, futRollingMean h, futRollingVar h⟩

/-- The loop of `build_future_features`: emit a row from the current
buffer, then append that row's `rolling_mean_3`
(`history.append(row.get("rolling_mean_3", ...))`; the key is always
present, so the `.get` default is dead) and recurse on the remaining
months. -/
def build_future_rows (history : List ℚ) : ℕ → List FutRow
  | 0 => []
  | n + 1 =>
    let row := futRow history
    row :: build_future_rows (history ++ [row.rolling_mean 3]) n

/-- The buffer state before emitting future row `i`, seeded with
`last_known_values`. -/
def futureHistory (seed : List ℚ) : ℕ → List ℚ
  | 0 => seed
  | i + 1 => futureHistory seed i ++ [futRollingMean (futureHistory seed i) 3]

/-- The month after a given (year, month). -/
def nextMonth : ℤ × ℕ → ℤ × ℕ :=
  fun ym => if ym.2 = 12 then (ym.1 + 1, 1) else (ym.1, ym.2 + 1)

/-- The calendar months of the future feature table,
`pd.date_range(start=last_date + pd.offsets.MonthBegin(1),
periods=n_months, freq="MS")` (`feature_engineering.py` lines 142–144):
the `n` month starts strictly after `last`, where `run_forecast` passes
`last = train_df["date"].max()` — the last historical month before the
target year. -/
def futureDates (last : ℤ × ℕ) : ℕ → List (ℤ × ℕ)
  | 0 => []
  | n + 1 => nextMonth last :: futureDates (nextMonth last) n

/-! ## Model adapters (`models/*.py`)

The four adapters wrap external statistical libraries.  The library
fitters are embedded as abstract parameters; everything the repository
code itself does — the strict `year < forecast_year` training filter,
the minimum-row guards, the 12-month horizon, the non-negativity
clipping, the SARIMAX exogenous mean-fill and order retry, and every
error message — is embedded concretely.  `units_sold` is a total number
per the data model, so `dropna` on it alone (Prophet) is identity; the
XGBoost `dropna` over the feature columns is embedded, since engineered
lag/rolling cells genuinely carry NaN in early rows. -/

/-- A training row as the Prophet adapter sees it (`ds`, `y`), with the
calendar year exposed for the training filter. -/
structure PRow where
  year : ℤ
  month : ℕ
  y : ℚ
deriving Repr, DecidableEq

/-- `train_and_predict_prophet(df, forecast_year)`.  `fit` is the
abstract Prophet fitter: from the training rows it yields a point
forecast per (year, month); `model.predict` on the 12-row future frame
returns one `yhat` per row, each clipped at 0. -/
def train_and_predict_prophet (fit : List PRow → ℤ → ℕ → ℚ)
    (df : List PRow) (forecast_year : ℤ) : Except String (List ℚ) :=
  let train := df.filter fun r => r.year < forecast_year
  if train.length < 12 then
    .error ("Insufficient training data: " ++ toString train.length ++ " rows (need ≥ 12)")
  else
    let model := fit train
    .ok (((List.range 12).map fun m => model forecast_year (m + 1)).map fun yhat => max yhat 0)

/-- A training row as the XGBoost adapter sees it: calendar year, the
category-selected feature vector (cells may be missing — NaN lags and
rolling statistics in the early rows), and the target. -/
structure XRow where
  year : ℤ
  features : List (Option ℚ)
  units_sold : ℚ
deriving Repr, DecidableEq

/-- `DataFrame.fillna(0)` over one feature row. -/
def fillna0 (row : List (Option ℚ)) : List ℚ := row.map fun c => c.getD 0

/-- The XGBoost training frame: the `year < forecast_year` filter
followed by `dropna(subset=feature_cols + ["units_sold"])` — a row is
dropped when any selected feature cell is missing (`units_sold` itself
is total per the data model). -/
def xgbTrain (df : List XRow) (forecast_year : ℤ) : List XRow :=
  (df.filter fun r => r.year < forecast_year).filter fun r => r.features.all fun c => c.isSome

/-- `train_and_predict_xgboost(df, feature_cols, forecast_year,
future_features_df)`.  `fit` is the abstract regressor: from (features,
target) training pairs it yields a per-row predictor applied to each
`fillna(0)`-completed future feature row, clipped at 0.  The
`future_features_df is None` guard sits after the fit in the source;
with a pure abstract fitter the embedding keeps the same error
precedence. -/
def train_and_predict_xgboost (fit : List (List ℚ × ℚ) → List ℚ → ℚ)
    (df : List XRow) (forecast_year : ℤ)
    (future_features_df : Option (List (List (Option ℚ)))) : Except String (List ℚ) :=
  let train := xgbTrain df forecast_year
  if train.length < 12 then
    .error ("Insufficient training data: " ++ toString train.length ++ " rows (need ≥ 12)")
  else
    let model := fit (train.map fun r => (fillna0 r.features, r.units_sold))
    match future_features_df with
    | none => .error "future_features_df must be provided for XGBoost prediction"
    | some fut => .ok ((fut.map fun row => model (fillna0 row)).map fun yhat => max yhat 0)

/-- A row as the hybrid adapter sees it (it feeds both sub-models). -/
structure HRow where
  year : ℤ
  month : ℕ
  features : List (Option ℚ)
  units_sold : ℚ
deriving Repr, DecidableEq

/-- `train_and_predict_hybrid`: run Prophet and XGBoost on the same
frame and blend `max(0, w·p + (1−w)·x)` pointwise (`prophet_weight`
defaults to `1/2` at the call sites).  Fails when either sub-model
fails. -/
def train_and_predict_hybrid (pfit : List PRow → ℤ → ℕ → ℚ)
    (xfit : List (List ℚ × ℚ) → List ℚ → ℚ)
    (df : List HRow) (forecast_year : ℤ)
    (future_features_df : Option (List (List (Option ℚ))))
    (prophet_weight : ℚ) : Except String (List ℚ) :=
  match train_and_predict_prophet pfit
      (df.map fun r => ⟨r.year, r.month, r.units_sold⟩) forecast_year with
  | .error e => .error e
  | .ok prophet_preds =>
    match train_and_predict_xgboost xfit
        (df.map fun r => ⟨r.year, r.features, r.units_sold⟩) forecast_year
        future_features_df with
    | .error e => .error e
    | .ok xgb_preds =>
      .ok (prophet_preds.zipWith
        (fun p x => max 0 (prophet_weight * p + (1 - prophet_weight) * x)) xgb_preds)

/-- A row as the SARIMAX adapter sees it: calendar year, target, and the
values of the available exogenous columns in a fixed column order. -/
structure SRow where
  year : ℤ
  units_sold : ℚ
  exog : List ℚ
deriving Repr, DecidableEq

/-- Per-column means of a row-major matrix (`DataFrame.mean()`). -/
def colMeans (rows : List (List ℚ)) : List ℚ := rows.transpose.map mean

/-- Lines 72–87 of `sarimax_model.py`: the future exogenous matrix.  A
supplied `future_exog_df` with all required columns is used as is;
otherwise (`None`, and likewise the missing-column branch, which in this
column-order embedding coincides with `None`) each column's historical
mean is tiled across the 12 forecast months
(`np.tile(means.values, (12, 1))`). -/
def computeExogFuture (exog_train_rows : List (List ℚ))
    (future_exog : Option (List (List ℚ))) : List (List ℚ) :=
  match future_exog with
  | some fut => fut
  | none => List.replicate 12 (colMeans exog_train_rows)

/-- `train_and_predict_sarimax(df, forecast_year, exog_cols,
future_exog_df)`.  `fit order seasonal_order y_train exog_train` is the
abstract statsmodels fitter, which may fail; a fitted model is a point
forecast per step given the future exogenous matrix, and
`result.forecast(steps=12, ...)` yields one value per step, clipped at 0
by `np.maximum(preds, 0)`.  `exog_cols_given` embeds
`exog_cols` being non-`None` with at least one column available in the
frame.  The fit is attempted with order `(1,1,1)`, seasonal
`(1,1,1,12)`; on failure it is retried exactly once with `(1,0,0)`,
seasonal `(1,0,0,12)`, and if that also fails the adapter surfaces
`"SARIMAX training failed: <e> | <e2>"`.  (The source's later
`exog_train is not None and exog_future is None` re-check is
unreachable: whenever `exog_cols_given`, the embedding — like the
source — has already set the future exogenous matrix.) -/
def train_and_predict_sarimax
    (fit : ℤ × ℤ × ℤ → ℤ × ℤ × ℤ × ℤ → List ℚ → Option (List (List ℚ)) →
      Except String (Option (List (List ℚ)) → ℕ → ℚ))
    (df : List SRow) (forecast_year : ℤ)
    (exog_cols_given : Bool)
    (future_exog_df : Option (List (List ℚ))) : Except String (List ℚ) :=
  let train := df.filter fun r => r.year < forecast_year
  let y_train := train.map fun r => r.units_sold
  if y_train.length < 24 then
    .error ("Insufficient training data: " ++ toString y_train.length ++ " rows (need ≥ 24)")
  else
    let exog_train : Option (List (List ℚ)) :=
      if exog_cols_given then some (train.map fun r => r.exog) else none
    let exog_future : Option (List (List ℚ)) :=
      if exog_cols_given then
        some (computeExogFuture (train.map fun r => r.exog) future_exog_df)
      else none
    match fit (1, 1, 1) (1, 1, 1, 12) y_train exog_train with
    | .ok result =>
      .ok (((List.range 12).map (result exog_future)).map fun p => max p 0)
    | .error e =>
      match fit (1, 0, 0) (1, 0, 0, 12) y_train exog_train with
      | .ok result =>
        .ok (((List.range 12).map (result exog_future)).map fun p => max p 0)
      | .error e2 => .error ("SARIMAX training failed: " ++ e ++ " | " ++ e2)

/-! ## Orchestration (`routes/forecast_routes.py`, `run_forecast`)

The route's database reads/writes and HTTP plumbing are external
collaborators; the decision logic — model selection, the
primary-then-fallback loop with error accumulation, metric packaging,
the fixed month labels and the `(product, year)` upsert key — is
embedded.  `run` abstracts `_run_model`: invoking one named model on the
already-built features, returning its predictions or its error
text. -/

def MONTH_LABELS : List String :=
  ["Jan-2025", "Feb-2025", "Mar-2025", "Apr-2025",
   "May-2025", "Jun-2025", "Jul-2025", "Aug-2025",
   "Sep-2025", "Oct-2025", "Nov-2025", "Dec-2025"]

structure ForecastRequestR where
  product : String
  category : String
  model : String
  year : ℤ
deriving Repr, DecidableEq

structure ForecastResultR where
  product : String
  category : String
  model_used : String
  months : List String
  actual : List (Option ℚ)
  predicted : List ℚ
  metrics : Option MetricsR
deriving Repr, DecidableEq

/-- The fallback loop of lines 125–137: try each fallback in order,
accumulating one error line per failed attempt; the first success wins
and is labelled `"<name> (fallback)"`; exhaustion raises the aggregate
`"All models failed."` error. -/
def tryFallbacks (run : String → Except String (List ℚ))
    (errors : List String) : List String → Except String (List ℚ × String)
  | [] => .error ("All models failed. Details: " ++ pyJoin "; " errors)
  | f :: rest =>
    match run f with
    | .ok preds => .ok (preds, f ++ " (fallback)")
    | .error e2 => tryFallbacks run (errors ++ ["Fallback " ++ f ++ ": " ++ e2]) rest

/-- Lines 116–137: run the primary model; on exception start the
fallback walk with the primary's error recorded first. -/
def runWithFallback (run : String → Except String (List ℚ))
    (category : String) (primary : String) : Except String (List ℚ × String) :=
  match run primary with
  | .ok preds => .ok (preds, primary)
  | .error e =>
    tryFallbacks run ["Primary " ++ primary ++ ": " ++ e] (get_fallback_list category)

/-- `run_forecast(request)`, from model selection to the packaged
result.  `actual` is the per-month actuals list the route assembles from
the database for the requested year (`none` for a missing month).  On
success the embedding returns the `ForecastResult` payload together
with the `(product, year)` key under which the route upserts it. -/
def run_forecast (run : String → Except String (List ℚ))
    (req : ForecastRequestR) (actual : List (Option ℚ)) :
    Except String (ForecastResultR × String × ℤ) :=
  match select_model req.category req.model with
  | .error e => .error e
  | .ok model_name =>
    match runWithFallback run req.category model_name with
    | .error e => .error e
    | .ok (predictions, used) =>
      let md := calculate_metrics actual predictions
      let metrics := if md.MAE ≠ 0 ∨ actual.any (fun a => a.isSome) then some md else none
      .ok ({ product := req.product, category := req.category, model_used := used,
             months := MONTH_LABELS, actual := actual,
             predicted := predictions.map round2, metrics := metrics },
           req.product, req.year)

/-! ## Helper lemmas -/

/-- A dictionary lookup yields the default or one of the stored values. -/
lemma dictGet_mem_values {α : Type} (m : List (String × α)) (k : String) (dflt : α) :
    dictGet m k dflt = dflt ∨ dictGet m k dflt ∈ m.map Prod.snd := by
  unfold dictGet
  cases h : m.find? (fun p => p.1 = k) with
  | none => exact Or.inl rfl
  | some p => exact Or.inr (List.mem_map_of_mem Prod.snd (List.mem_of_find?_eq_some h))

/-- A dictionary lookup on a key absent from the map yields the default. -/
lemma dictGet_of_not_mem {α : Type} (m : List (String × α)) (k : String) (dflt : α)
    (h : k ∉ m.map Prod.fst) : dictGet m k dflt = dflt := by
  unfold dictGet
  rw [List.find?_eq_none.mpr]
  intro p hp
  simp only [decide_eq_true_eq]
  intro hpk
  exact h (hpk ▸ List.mem_map_of_mem Prod.fst hp)

/-- Half-even rounding lands within one half of its argument. -/
lemma abs_roundHalfEven_sub_le (x : ℚ) : |(roundHalfEven x : ℚ) - x| ≤ 1/2 := by
  have h1 : ((⌊x⌋ : ℚ)) ≤ x := Int.floor_le x
  have h2 : x < (⌊x⌋ : ℚ) + 1 := Int.lt_floor_add_one x
  unfold roundHalfEven
  split_ifs with hlt hgt hev <;> rw [abs_le] <;> push_cast <;>
    constructor <;> linarith

/-- `round(x, 2)` lands within `1/200` of `x`. -/
lemma abs_round2_sub_le (x : ℚ) : |round2 x - x| ≤ 1/200 := by
  have h := abs_roundHalfEven_sub_le (100 * x)
  unfold round2
  have : (roundHalfEven (100 * x) : ℚ) / 100 - x
      = ((roundHalfEven (100 * x) : ℚ) - 100 * x) / 100 := by ring
  rw [this, abs_div]
  rw [show |(100 : ℚ)| = 100 by norm_num]
  linarith [h]

/-- The integer-square-root bounds behind `sqrtNearestNat`:
`sqrtNearestNat a b` is within one half of `sqrt (a/b)`, stated
multiplicatively over ℕ. -/
lemma sqrtNearestNat_bounds (a b : ℕ) (hb : 0 < b) :
    4 * a ≤ (2 * sqrtNearestNat a b + 1)^2 * b
    ∧ (1 ≤ sqrtNearestNat a b → (2 * sqrtNearestNat a b - 1)^2 * b ≤ 4 * a) := by
  have hf1 : (Nat.sqrt (4*a*b) / b) * (Nat.sqrt (4*a*b) / b) * b ≤ 4 * a := by
    have h1 : (Nat.sqrt (4*a*b) / b) * b ≤ Nat.sqrt (4*a*b) := Nat.div_mul_le_self _ _
    have h2 : Nat.sqrt (4*a*b) * Nat.sqrt (4*a*b) ≤ 4*a*b := Nat.sqrt_le _
    have h3 : ((Nat.sqrt (4*a*b) / b) * b) * ((Nat.sqrt (4*a*b) / b) * b) ≤ 4*a*b :=
      le_trans (Nat.mul_le_mul h1 h1) h2
    have h4 : ((Nat.sqrt (4*a*b) / b) * (Nat.sqrt (4*a*b) / b) * b) * b ≤ (4*a) * b := by
      calc ((Nat.sqrt (4*a*b) / b) * (Nat.sqrt (4*a*b) / b) * b) * b
          = ((Nat.sqrt (4*a*b) / b) * b) * ((Nat.sqrt (4*a*b) / b) * b) := by ring
        _ ≤ 4*a*b := h3
    exact Nat.le_of_mul_le_mul_right h4 hb
  have hf2 : 4 * a < ((Nat.sqrt (4*a*b) / b) + 1)^2 * b := by
    have h1 : Nat.sqrt (4*a*b) < ((Nat.sqrt (4*a*b) / b) + 1) * b :=
      (Nat.div_lt_iff_lt_mul hb).mp (Nat.lt_succ_self _)
    have h2 : 4*a*b < (Nat.sqrt (4*a*b) + 1)^2 := Nat.lt_succ_sqrt' _
    have h3 : (Nat.sqrt (4*a*b) + 1)^2 ≤ (((Nat.sqrt (4*a*b) / b) + 1) * b)^2 :=
      Nat.pow_le_pow_left h1 2
    have h4 : (4*a) * b < (((Nat.sqrt (4*a*b) / b) + 1)^2 * b) * b := by
      calc (4*a) * b = 4*a*b := by ring
        _ < (((Nat.sqrt (4*a*b) / b) + 1) * b)^2 := lt_of_lt_of_le h2 h3
        _ = (((Nat.sqrt (4*a*b) / b) + 1)^2 * b) * b := by ring
    exact Nat.lt_of_mul_lt_mul_right h4
  simp only [sqrtNearestNat]
  set f2 := Nat.sqrt (4*a*b) / b with hf2def
  clear_value f2
  clear hf2def
  split_ifs with htie hev
  · -- tie, even half: k = (f2 - 1) / 2, f2 odd, 4a = f2²·b
    obtain ⟨heq, hodd⟩ := htie
    set t := (f2 - 1) / 2 with ht
    have hft : f2 = 2 * t + 1 := by omega
    constructor
    · rw [heq, hft]; nlinarith [Nat.zero_le t, Nat.zero_le b]
    · intro h1t
      rw [heq, hft]
      have h21 : 2 * t - 1 ≤ 2 * t + 1 := by omega
      calc (2*t - 1)^2 * b ≤ (2*t+1)^2 * b :=
            Nat.mul_le_mul_right b (Nat.pow_le_pow_left h21 2)
        _ = (2*t+1) * (2*t+1) * b := by ring
  · -- tie, odd half: k = (f2 + 1) / 2 = t + 1 with f2 = 2t+1
    obtain ⟨heq, hodd⟩ := htie
    set t := (f2 - 1) / 2 with ht
    have hft : f2 = 2 * t + 1 := by omega
    have hk : (f2 + 1) / 2 = t + 1 := by omega
    rw [hk]
    constructor
    · rw [heq, hft]; nlinarith [Nat.zero_le t, Nat.zero_le b]
    · intro _
      have h2k : 2 * (t + 1) - 1 = f2 := by omega
      rw [h2k, heq, pow_two]
  -- no tie: k = (f2 + 1) / 2
  · have hpar := Nat.mod_two_eq_zero_or_one f2
    rcases hpar with hev2 | hodd2
    · -- f2 = 2t, k = t
      set t := f2 / 2 with ht
      have hft : f2 = 2 * t := by omega
      have hk : (f2 + 1) / 2 = t := by omega
      rw [hk]
      constructor
      · have : f2 + 1 ≤ 2 * t + 1 := by omega
        calc 4 * a ≤ (f2 + 1)^2 * b := le_of_lt hf2
          _ ≤ (2*t+1)^2 * b := Nat.mul_le_mul_right b (Nat.pow_le_pow_left this 2)
      · intro h1t
        have : 2 * t - 1 ≤ f2 := by omega
        calc (2*t - 1)^2 * b ≤ f2^2 * b := Nat.mul_le_mul_right b (Nat.pow_le_pow_left this 2)
          _ = f2 * f2 * b := by ring
          _ ≤ 4 * a := hf1
    · -- f2 = 2t+1 (non-tie), k = t+1
      set t := f2 / 2 with ht
      have hft : f2 = 2 * t + 1 := by omega
      have hk : (f2 + 1) / 2 = t + 1 := by omega
      rw [hk]
      constructor
      · have : f2 + 1 ≤ 2 * (t + 1) + 1 := by omega
        calc 4 * a ≤ (f2 + 1)^2 * b := le_of_lt hf2
          _ ≤ (2*(t+1)+1)^2 * b := Nat.mul_le_mul_right b (Nat.pow_le_pow_left this 2)
      · intro _
        have h2k : 2 * (t + 1) - 1 = f2 := by omega
        rw [h2k]
        calc f2^2 * b = f2 * f2 * b := by ring
          _ ≤ 4 * a := hf1

/-- `sqrtNearest100 q / 100` is within half a hundredth of the true
square root of `q`, stated by squaring (for `0 ≤ q`): writing
`k = sqrtNearest100 q`, we have `(2k−1)² ≤ 40000·q ≤ (2k+1)²`
(the lower bound degenerating when `k = 0`). -/
lemma sqrtNearest100_bounds (q : ℚ) (hq : 0 ≤ q) :
    40000 * q ≤ (2 * (sqrtNearest100 q : ℚ) + 1)^2
    ∧ ((2 * (sqrtNearest100 q : ℚ) - 1)^2 ≤ 40000 * q ∨ sqrtNearest100 q = 0) := by
  have hq' : (0 : ℚ) ≤ 10000 * q := by positivity
  set a : ℕ := (10000 * q).num.toNat with ha
  set b : ℕ := (10000 * q).den with hb
  have hbpos : 0 < b := (10000 * q).pos
  obtain ⟨hub, hlb⟩ := sqrtNearestNat_bounds a b hbpos
  set n : ℕ := sqrtNearestNat a b with hn
  have hk : sqrtNearest100 q = (n : ℤ) := rfl
  have hbQ : (0 : ℚ) < (b : ℚ) := by exact_mod_cast hbpos
  have hnum : (((a : ℕ) : ℤ) : ℚ) = ((10000 * q).num : ℚ) := by
    rw [ha]
    exact_mod_cast congrArg (fun z : ℤ => (z : ℚ))
      (Int.toNat_of_nonneg (Rat.num_nonneg.mpr hq'))
  have hqa : (10000 * q) * (b : ℚ) = (a : ℚ) := by
    have hrepr : (10000 * q) = ((a : ℕ) : ℚ) / ((b : ℕ) : ℚ) := by
      rw [show (((a : ℕ) : ℕ) : ℚ) = (((a : ℕ) : ℤ) : ℚ) by push_cast; ring, hnum, hb,
        Rat.num_div_den]
    rw [hrepr, div_mul_cancel₀ _ (ne_of_gt hbQ)]
  have h40 : (40000 : ℚ) * q = 4 * (a : ℚ) / (b : ℚ) := by
    rw [eq_div_iff (ne_of_gt hbQ)]
    linear_combination 4 * hqa
  constructor
  · have hubQ : (4 : ℚ) * a ≤ (2 * (n : ℚ) + 1)^2 * (b : ℚ) := by exact_mod_cast hub
    rw [hk, h40, div_le_iff₀ hbQ]
    push_cast
    linarith [hubQ]
  · by_cases hz : n = 0
    · right; rw [hk, hz]; rfl
    · left
      have h1 : 1 ≤ n := by omega
      have hlbn := hlb h1
      have hlbQ : (2 * (n : ℚ) - 1)^2 * (b : ℚ) ≤ (4 : ℚ) * a := by
        have hcast : ((2 * n - 1 : ℕ) : ℚ) = 2 * (n : ℚ) - 1 := by
          have h2 : 1 ≤ 2 * n := by omega
          push_cast [Nat.cast_sub h2]
          ring
        calc (2 * (n : ℚ) - 1)^2 * (b : ℚ) = (((2 * n - 1 : ℕ) : ℚ))^2 * (b : ℚ) := by
              rw [hcast]
          _ = (((2 * n - 1)^2 * b : ℕ) : ℚ) := by push_cast; ring
          _ ≤ ((4 * a : ℕ) : ℚ) := by exact_mod_cast hlbn
          _ = (4 : ℚ) * a := by push_cast; ring
      rw [hk, h40, le_div_iff₀ hbQ]
      push_cast
      linarith [hlbQ]

/-- `zipWith` over the two projections of a pair list is a `map`. -/
lemma zipWith_proj (f : ℚ → ℚ → ℚ) (l : List (ℚ × ℚ)) :
    (l.map Prod.fst).zipWith f (l.map Prod.snd) = l.map fun ap => f ap.1 ap.2 := by
  induction l with
  | nil => rfl
  | cons a t ih => simp [ih]

/-- A mean of nonnegative values is nonnegative. -/
lemma mean_nonneg (l : List ℚ) (h : ∀ x ∈ l, 0 ≤ x) : 0 ≤ mean l :=
  div_nonneg (List.sum_nonneg h) (Nat.cast_nonneg _)

/-- Evaluate `Nat.sqrt` from the two defining inequalities. -/
lemma nat_sqrt_eval {n a : ℕ} (h1 : a * a ≤ n) (h2 : n < (a + 1) * (a + 1)) :
    Nat.sqrt n = a :=
  (Nat.eq_sqrt.mpr ⟨h1, h2⟩).symm

/-- `round(sqrt 11, 2) = 3.32`. -/
lemma roundSqrt2_11 : roundSqrt2 11 = 83/25 := by
  have hs : Nat.sqrt 440000 = 663 := nat_sqrt_eval (by norm_num) (by norm_num)
  unfold roundSqrt2 sqrtNearest100 sqrtNearestNat
  rw [show ((10000 : ℚ) * 11) = 110000 by norm_num]
  rw [show (110000 : ℚ).num.toNat = 110000 from rfl, show (110000 : ℚ).den = 1 from rfl]
  rw [show 4 * 110000 * 1 = 440000 by norm_num, hs]
  norm_num

/-- Upper half of the nearest-sqrt characterisation, phrased on
`roundSqrt2` itself: `(100·roundSqrt2 q + 1/2)² ≥ 10000·q`. -/
lemma roundSqrt2_ub (q : ℚ) (hq : 0 ≤ q) :
    40000 * q ≤ (2 * (100 * roundSqrt2 q) + 1)^2 := by
  have h100 : (100 : ℚ) * roundSqrt2 q = ((sqrtNearest100 q : ℤ) : ℚ) := by
    unfold roundSqrt2; ring
  rw [h100]
  exact (sqrtNearest100_bounds q hq).1

/-- Lower half of the nearest-sqrt characterisation on `roundSqrt2`. -/
lemma roundSqrt2_lb (q : ℚ) (hq : 0 ≤ q) :
    (2 * (100 * roundSqrt2 q) - 1)^2 ≤ 40000 * q ∨ roundSqrt2 q = 0 := by
  have h100 : (100 : ℚ) * roundSqrt2 q = ((sqrtNearest100 q : ℤ) : ℚ) := by
    unfold roundSqrt2; ring
  rw [h100]
  rcases (sqrtNearest100_bounds q hq).2 with h | h
  · exact Or.inl h
  · right; unfold roundSqrt2; rw [h]; norm_num

/-- Closed form of `calculate_metrics` on a nonempty kept-pairs list,
with the positional `zipWith` folded into maps over the pair list. -/
lemma calculate_metrics_eq (actual : List (Option ℚ)) (predicted : List ℚ)
    (h : keptPairs actual predicted ≠ []) :
    calculate_metrics actual predicted =
      ⟨round2 (mean ((keptPairs actual predicted).map fun ap => |ap.1 - ap.2|)),
       roundSqrt2 (mean ((keptPairs actual predicted).map fun ap => (ap.1 - ap.2)^2)),
       if ((keptPairs actual predicted).filter fun ap => ap.1 ≠ 0).length > 0 then
         fmt2 (roundHalfEven (100 * (mean ((((keptPairs actual predicted).filter
           fun ap => ap.1 ≠ 0)).map fun ap => |(ap.1 - ap.2) / ap.1|) * 100))).toNat ++ "%"
       else "N/A"⟩ := by
  unfold calculate_metrics
  rw [if_neg h, MetricsR.mk.injEq]
  exact ⟨by rw [zipWith_proj], by rw [zipWith_proj], rfl⟩

/-! ## Claim theorems -/

/-- C6: the category classifier is pure and total: every input string
(including the empty string) yields one of the five logical types
without failing; a non-empty input is matched by lower-casing and
whitespace-trimming followed by exact lookup in `CATEGORY_TYPE_MAP`,
with any non-matching string mapped to `"other"`; in particular
`classify("Cefixime") = antibiotic` and
`classify("unknown drug") = other`. -/
theorem claim_C6 :
    (∀ s : String,
      get_category_type s ∈ (["antibiotic", "gastro", "acute", "chronic", "other"] : List String))
    ∧ (∀ s : String, s ≠ "" →
        get_category_type s = dictGet CATEGORY_TYPE_MAP (pyStrip (pyLower s)) "other")
    ∧ (∀ s : String, s ≠ "" → pyStrip (pyLower s) ∉ CATEGORY_TYPE_MAP.map Prod.fst →
        get_category_type s = "other")
    ∧ get_category_type "Cefixime" = "antibiotic"
    ∧ get_category_type " CEFIXIME " = "antibiotic"
    ∧ get_category_type "unknown drug" = "other"
    ∧ get_category_type "" = "other" := by
  refine ⟨?_, ?_, ?_, rfl, rfl, rfl, rfl⟩
  · intro s
    unfold get_category_type
    by_cases hs : s = ""
    · rw [if_pos hs]; decide
    · rw [if_neg hs]
      rcases dictGet_mem_values CATEGORY_TYPE_MAP (pyStrip (pyLower s)) "other" with h | h
      · rw [h]; decide
      · have hsub : ∀ x ∈ CATEGORY_TYPE_MAP.map Prod.snd,
            x ∈ (["antibiotic", "gastro", "acute", "chronic", "other"] : List String) := by
          decide
        exact hsub _ h
  · intro s hs
    unfold get_category_type
    rw [if_neg hs]
  · intro s hs hmem
    unfold get_category_type
    rw [if_neg hs, dictGet_of_not_mem _ _ _ hmem]

/-- Witness for C6 at concrete inputs. -/
theorem claim_C6_witness :
    get_category_type "Cefixime"
        ∈ (["antibiotic", "gastro", "acute", "chronic", "other"] : List String)
    ∧ get_category_type "Cefixime" = dictGet CATEGORY_TYPE_MAP (pyStrip (pyLower "Cefixime")) "other"
    ∧ get_category_type "zzz" = "other" :=
  ⟨claim_C6.1 "Cefixime", claim_C6.2.1 "Cefixime" (by decide),
   claim_C6.2.2.1 "zzz" (by decide) (by decide)⟩

/-- C3 is false as stated: a raw category string outside the
classification table resolves to the logical type `"other"`, and
`TYPE_FALLBACK_MAP` *does* contain an entry for `"other"`, namely
`["prophet", "sarimax"]` — not the claimed default
`["prophet", "xgboost"]`, which is the dead `defaults` value of
`get_fallback_list`. -/
theorem claim_C3_counterexample :
    get_category_type "unknown drug" = "other"
    ∧ get_fallback_list "unknown drug" = ["prophet", "sarimax"]
    ∧ (["prophet", "sarimax"] : List String) ≠ ["prophet", "xgboost"] :=
  ⟨rfl, rfl, by decide⟩

/-- C3 amended: a raw category outside the classification table (logical
type `"other"`) gets the fallback list `["prophet", "sarimax"]` — the
`TYPE_FALLBACK_MAP` entry for `"other"`; the hard-coded default
`["prophet", "xgboost"]` is unreachable because every logical type has a
map entry.  A category resolving to `antibiotic` gets
`["prophet", "xgboost"]` as claimed. -/
theorem claim_C3 :
    (∀ s : String, get_category_type s = "other" →
        get_fallback_list s = ["prophet", "sarimax"])
    ∧ (∀ s : String, get_category_type s = "antibiotic" →
        get_fallback_list s = ["prophet", "xgboost"]) := by
  constructor <;> · intro s h; unfold get_fallback_list; rw [h]; rfl

/-- Witness for C3 at concrete inputs. -/
theorem claim_C3_witness :
    get_fallback_list "unknown drug" = ["prophet", "sarimax"]
    ∧ get_fallback_list "Cefixime" = ["prophet", "xgboost"] :=
  ⟨claim_C3.1 "unknown drug" rfl, claim_C3.2 "Cefixime" rfl⟩

/-- C5: an explicit (non-empty) model name other than `"auto"` is
returned verbatim when it belongs to `{prophet, xgboost, sarimax,
hybrid}` and raises a `ValueError` otherwise; that error propagates out
of `run_forecast` unchanged no matter how any model would behave — it is
raised before any training and bypasses the fallback walk; `"auto"` is
resolved through the fixed type-to-model table antibiotic→sarimax,
gastro→prophet, acute→xgboost, chronic→prophet, other→xgboost. -/
theorem claim_C5 :
    (∀ cat m : String, m ∈ validModels → select_model cat m = .ok m)
    ∧ (∀ cat m : String, m ≠ "auto" → m ≠ "" → m ∉ validModels →
        select_model cat m =
          .error ("Invalid model override '" ++ m ++ "'. Choose from the valid set"))
    ∧ (∀ (run : String → Except String (List ℚ)) (req : ForecastRequestR)
        (actual : List (Option ℚ)) (e : String),
        select_model req.category req.model = .error e →
        run_forecast run req actual = .error e)
    ∧ (∀ cat, get_category_type cat = "antibiotic" → select_model cat "auto" = .ok "sarimax")
    ∧ (∀ cat, get_category_type cat = "gastro" → select_model cat "auto" = .ok "prophet")
    ∧ (∀ cat, get_category_type cat = "acute" → select_model cat "auto" = .ok "xgboost")
    ∧ (∀ cat, get_category_type cat = "chronic" → select_model cat "auto" = .ok "prophet")
    ∧ (∀ cat, get_category_type cat = "other" → select_model cat "auto" = .ok "xgboost") := by
  refine ⟨?_, ?_, ?_, ?_, ?_, ?_, ?_, ?_⟩
  · intro cat m hm
    fin_cases hm <;> rfl
  · intro cat m h1 h2 h3
    unfold select_model
    rw [if_pos ⟨h2, h1⟩, if_neg h3]
  · intro run req actual e h
    unfold run_forecast
    rw [h]
  all_goals
  · intro cat h
    unfold select_model
    rw [if_neg (by decide)]
    simp only [h]
    rfl

/-- Witness for C5 at concrete inputs. -/
theorem claim_C5_witness :
    select_model "anything" "hybrid" = .ok "hybrid"
    ∧ select_model "anything" "bogus" =
        .error ("Invalid model override '" ++ "bogus" ++ "'. Choose from the valid set")
    ∧ run_forecast (fun _ => .ok []) ⟨"P", "c", "bogus", 2025⟩ [] =
        .error "Invalid model override 'bogus'. Choose from the valid set"
    ∧ select_model "Cefixime" "auto" = .ok "sarimax"
    ∧ select_model "Omeprazole" "auto" = .ok "prophet"
    ∧ select_model "Diclofenac Sodium" "auto" = .ok "xgboost"
    ∧ select_model "Sitagliptin" "auto" = .ok "prophet"
    ∧ select_model "unknown drug" "auto" = .ok "xgboost" :=
  ⟨claim_C5.1 "anything" "hybrid" (by decide),
   claim_C5.2.1 "anything" "bogus" (by decide) (by decide) (by decide),
   claim_C5.2.2.1 (fun _ => .ok []) ⟨"P", "c", "bogus", 2025⟩ [] _ rfl,
   claim_C5.2.2.2.1 "Cefixime" rfl,
   claim_C5.2.2.2.2.1 "Omeprazole" rfl,
   claim_C5.2.2.2.2.2.1 "Diclofenac Sodium" rfl,
   claim_C5.2.2.2.2.2.2.1 "Sitagliptin" rfl,
   claim_C5.2.2.2.2.2.2.2 "unknown drug" rfl⟩

/-- C10 (implicit): every successful `run_forecast` returns the fixed
month labels `"Jan-2025" … "Dec-2025"` regardless of the requested
year, while the persistence key is `(product, requested year)`. -/
theorem claim_C10 :
    ∀ (run : String → Except String (List ℚ)) (req : ForecastRequestR)
      (actual : List (Option ℚ)) (r : ForecastResultR) (key : String × ℤ),
      run_forecast run req actual = .ok (r, key) →
      r.months = ["Jan-2025", "Feb-2025", "Mar-2025", "Apr-2025",
                  "May-2025", "Jun-2025", "Jul-2025", "Aug-2025",
                  "Sep-2025", "Oct-2025", "Nov-2025", "Dec-2025"]
      ∧ key = (req.product, req.year) := by
  intro run req actual r key h
  unfold run_forecast at h
  split at h
  · exact absurd h (by simp)
  · split at h
    · exact absurd h (by simp)
    · rw [Except.ok.injEq, Prod.mk.injEq] at h
      exact ⟨h.1 ▸ rfl, h.2.symm⟩

/-- Witness for C10: a concrete successful run, requested year 2030. -/
theorem claim_C10_witness :
    ∃ (r : ForecastResultR) (key : String × ℤ),
      run_forecast (fun _ => .ok (List.replicate 12 (5 : ℚ)))
          ⟨"P", "Omeprazole", "auto", 2030⟩ [] = .ok (r, key)
      ∧ r.months = ["Jan-2025", "Feb-2025", "Mar-2025", "Apr-2025",
                    "May-2025", "Jun-2025", "Jul-2025", "Aug-2025",
                    "Sep-2025", "Oct-2025", "Nov-2025", "Dec-2025"]
      ∧ key = ("P", 2030) := by
  refine ⟨_, _, rfl, ?_⟩
  exact claim_C10 (fun _ => .ok (List.replicate 12 (5 : ℚ)))
    ⟨"P", "Omeprazole", "auto", 2030⟩ [] _ _ rfl

/-- C2 is false as stated: the code rounds MAE (and RMSE) to two
decimals before returning.  With actual `[1, 1, 1]` and predicted
`[0, 0, 1]` the mean absolute error over the kept pairs is `2/3`, but
`calculate_metrics` returns MAE `= 0.67`. -/
theorem claim_C2_counterexample :
    (calculate_metrics [some 1, some 1, some 1] [0, 0, 1]).MAE = 67/100
    ∧ mean ((keptPairs [some 1, some 1, some 1] [0, 0, 1]).map fun ap => |ap.1 - ap.2|) = 2/3
    ∧ (67/100 : ℚ) ≠ 2/3 := by
  have hkp : keptPairs [some 1, some 1, some 1] [0, 0, 1] = [(1, 0), (1, 0), (1, 1)] := by
    simp [keptPairs]
  refine ⟨?_, ?_, by norm_num⟩
  · rw [calculate_metrics_eq _ _ (by rw [hkp]; simp), hkp]
    rw [show List.map (fun ap => |ap.1 - ap.2|) [((1:ℚ), (0:ℚ)), (1, 0), (1, 1)]
        = [1, 1, 0] by simp]
    rw [show mean [(1:ℚ), 1, 0] = 2/3 by simp [mean]; norm_num]
    simp only [round2, roundHalfEven]
    norm_num
  · rw [hkp]
    rw [show List.map (fun ap => |ap.1 - ap.2|) [((1:ℚ), (0:ℚ)), (1, 0), (1, 1)]
        = [1, 1, 0] by simp]
    simp [mean]
    norm_num

/-- The nonempty-kept-pairs behaviour of `calculate_metrics`, as one
lemma: MAE/RMSE equal the two-decimal roundings of the exact mean
absolute error and root mean squared error (the RMSE rounding
characterised by squared bounds), and MAPE is the formatted percentage
over the nonzero-actual kept pairs, `"N/A"` when there are none. -/
lemma cm_nonempty_spec (actual : List (Option ℚ)) (predicted : List ℚ)
    (h : keptPairs actual predicted ≠ []) :
    (calculate_metrics actual predicted).MAE
        = round2 (mean ((keptPairs actual predicted).map fun ap => |ap.1 - ap.2|))
    ∧ |round2 (mean ((keptPairs actual predicted).map fun ap => |ap.1 - ap.2|))
        - mean ((keptPairs actual predicted).map fun ap => |ap.1 - ap.2|)| ≤ 1/200
    ∧ (calculate_metrics actual predicted).RMSE
        = roundSqrt2 (mean ((keptPairs actual predicted).map fun ap => (ap.1 - ap.2)^2))
    ∧ 40000 * mean ((keptPairs actual predicted).map fun ap => (ap.1 - ap.2)^2)
        ≤ (2 * (100 * roundSqrt2 (mean ((keptPairs actual predicted).map
            fun ap => (ap.1 - ap.2)^2))) + 1)^2
    ∧ ((2 * (100 * roundSqrt2 (mean ((keptPairs actual predicted).map
            fun ap => (ap.1 - ap.2)^2))) - 1)^2
        ≤ 40000 * mean ((keptPairs actual predicted).map fun ap => (ap.1 - ap.2)^2)
       ∨ roundSqrt2 (mean ((keptPairs actual predicted).map
            fun ap => (ap.1 - ap.2)^2)) = 0)
    ∧ (((keptPairs actual predicted).filter fun ap => ap.1 ≠ 0) ≠ [] →
        (calculate_metrics actual predicted).MAPE
          = fmt2 (roundHalfEven (100 * (100 *
              mean (((keptPairs actual predicted).filter fun ap => ap.1 ≠ 0).map
                fun ap => |ap.1 - ap.2| / |ap.1|)))).toNat ++ "%")
    ∧ (((keptPairs actual predicted).filter fun ap => ap.1 ≠ 0) = [] →
        (calculate_metrics actual predicted).MAPE = "N/A") := by
  have heq := calculate_metrics_eq actual predicted h
  have hmse0 : (0:ℚ) ≤ mean ((keptPairs actual predicted).map fun ap => (ap.1 - ap.2)^2) :=
    mean_nonneg _ (fun x hx => by
      obtain ⟨ap, _, h2⟩ := List.mem_map.mp hx
      rw [← h2]; exact sq_nonneg _)
  refine ⟨by rw [heq], abs_round2_sub_le _, by rw [heq],
    roundSqrt2_ub _ hmse0, roundSqrt2_lb _ hmse0, ?_, ?_⟩
  · intro h2
    rw [heq]
    show (if ((keptPairs actual predicted).filter fun ap => ap.1 ≠ 0).length > 0 then
        fmt2 (roundHalfEven (100 * (mean ((((keptPairs actual predicted).filter
          fun ap => ap.1 ≠ 0)).map fun ap => |(ap.1 - ap.2) / ap.1|) * 100))).toNat ++ "%"
      else "N/A") = _
    rw [if_pos (List.length_pos.mpr h2)]
    have hmapcong :
        ((keptPairs actual predicted).filter fun ap => ap.1 ≠ 0).map
            (fun ap => |(ap.1 - ap.2) / ap.1|)
          = ((keptPairs actual predicted).filter fun ap => ap.1 ≠ 0).map
            (fun ap => |ap.1 - ap.2| / |ap.1|) :=
      List.map_congr_left fun ap _ => abs_div _ _
    rw [hmapcong, mul_comm (mean (((keptPairs actual predicted).filter
      fun ap => ap.1 ≠ 0).map fun ap => |ap.1 - ap.2| / |ap.1|)) 100]
  · intro h2
    rw [heq]
    show (if ((keptPairs actual predicted).filter fun ap => ap.1 ≠ 0).length > 0 then
        fmt2 (roundHalfEven (100 * (mean ((((keptPairs actual predicted).filter
          fun ap => ap.1 ≠ 0)).map fun ap => |(ap.1 - ap.2) / ap.1|) * 100))).toNat ++ "%"
      else "N/A") = _
    rw [if_neg (by rw [h2]; simp)]

/-- The worked example of the spec:
`calculate_metrics([10,20,0],[12,18,5])`. -/
lemma cm_example :
    calculate_metrics [some 10, some 20, some 0] [12, 18, 5] = ⟨3, 83/25, "15.00%"⟩ := by
  have hkp : keptPairs [some 10, some 20, some 0] [12, 18, 5]
      = [(10, 12), (20, 18), (0, 5)] := by simp [keptPairs]
  rw [calculate_metrics_eq _ _ (by rw [hkp]; simp), hkp, MetricsR.mk.injEq]
  refine ⟨?_, ?_, ?_⟩
  · rw [show List.map (fun ap => |ap.1 - ap.2|) [((10:ℚ), (12:ℚ)), (20, 18), (0, 5)]
        = [2, 2, 5] by simp; norm_num]
    rw [show mean [(2:ℚ), 2, 5] = 3 by simp [mean]; norm_num]
    simp only [round2, roundHalfEven]; norm_num
  · rw [show List.map (fun ap => (ap.1 - ap.2)^2) [((10:ℚ), (12:ℚ)), (20, 18), (0, 5)]
        = [4, 4, 25] by simp; norm_num]
    rw [show mean [(4:ℚ), 4, 25] = 11 by simp [mean]; norm_num]
    exact roundSqrt2_11
  · rw [show List.filter (fun ap => ap.1 ≠ 0) [((10:ℚ), (12:ℚ)), (20, 18), (0, 5)]
        = [(10, 12), (20, 18)] by simp [List.filter]]
    rw [if_pos (by simp)]
    rw [show List.map (fun ap => |(ap.1 - ap.2) / ap.1|) [((10:ℚ), (12:ℚ)), (20, 18)]
        = [1/5, 1/10] by simp; norm_num]
    rw [show mean [(1:ℚ)/5, 1/10] = 3/20 by simp [mean]; norm_num]
    rw [show (100:ℚ) * (3/20 * 100) = 1500 by norm_num]
    rw [show roundHalfEven 1500 = 1500 by simp only [roundHalfEven]; norm_num]
    rfl

/-- C2 amended: pairs are formed positionally and pairs with missing
actuals are dropped; over the kept pairs the code returns MAE and RMSE
*rounded to two decimals* (MAE is within `1/200` of the true mean
absolute error; 100·RMSE is within one half of the true square root of
`10000·`mean-squared-error, stated by squaring), and MAPE is computed
only over kept pairs with nonzero actual, formatted as a two-decimal
percentage string, `"N/A"` when no such pair exists; with no kept pairs
at all the result is `{MAE: 0, RMSE: 0, MAPE: "N/A"}` and no failure;
`calculate_metrics([10,20,0],[12,18,5]) = {MAE: 3.0, RMSE: 3.32,
MAPE: "15.00%"}`. -/
theorem claim_C2 :
    (∀ (actual : List (Option ℚ)) (predicted : List ℚ),
        keptPairs actual predicted = [] →
        calculate_metrics actual predicted = ⟨0, 0, "N/A"⟩)
    ∧ (∀ (actual : List (Option ℚ)) (predicted : List ℚ),
        keptPairs actual predicted ≠ [] →
        (calculate_metrics actual predicted).MAE
            = round2 (mean ((keptPairs actual predicted).map fun ap => |ap.1 - ap.2|))
        ∧ |round2 (mean ((keptPairs actual predicted).map fun ap => |ap.1 - ap.2|))
            - mean ((keptPairs actual predicted).map fun ap => |ap.1 - ap.2|)| ≤ 1/200
        ∧ (calculate_metrics actual predicted).RMSE
            = roundSqrt2 (mean ((keptPairs actual predicted).map fun ap => (ap.1 - ap.2)^2))
        ∧ 40000 * mean ((keptPairs actual predicted).map fun ap => (ap.1 - ap.2)^2)
            ≤ (2 * (100 * roundSqrt2 (mean ((keptPairs actual predicted).map
                fun ap => (ap.1 - ap.2)^2))) + 1)^2
        ∧ ((2 * (100 * roundSqrt2 (mean ((keptPairs actual predicted).map
                fun ap => (ap.1 - ap.2)^2))) - 1)^2
            ≤ 40000 * mean ((keptPairs actual predicted).map fun ap => (ap.1 - ap.2)^2)
           ∨ roundSqrt2 (mean ((keptPairs actual predicted).map
                fun ap => (ap.1 - ap.2)^2)) = 0)
        ∧ (((keptPairs actual predicted).filter fun ap => ap.1 ≠ 0) ≠ [] →
            (calculate_metrics actual predicted).MAPE
              = fmt2 (roundHalfEven (100 * (100 *
                  mean (((keptPairs actual predicted).filter fun ap => ap.1 ≠ 0).map
                    fun ap => |ap.1 - ap.2| / |ap.1|)))).toNat ++ "%")
        ∧ (((keptPairs actual predicted).filter fun ap => ap.1 ≠ 0) = [] →
            (calculate_metrics actual predicted).MAPE = "N/A"))
    ∧ calculate_metrics [some 10, some 20, some 0] [12, 18, 5] = ⟨3, 83/25, "15.00%"⟩
    ∧ calculate_metrics [] [] = ⟨0, 0, "N/A"⟩
    ∧ calculate_metrics [none, none, none] [1, 2, 3] = ⟨0, 0, "N/A"⟩ := by
  refine ⟨?_, cm_nonempty_spec, cm_example, rfl, rfl⟩
  intro actual predicted h
  unfold calculate_metrics
  rw [if_pos h]

/-- Witness for C2 at concrete inputs. -/
theorem claim_C2_witness :
    calculate_metrics [none] [5] = ⟨0, 0, "N/A"⟩
    ∧ (calculate_metrics [some 10, some 20, some 0] [12, 18, 5]).MAE
        = round2 (mean ((keptPairs [some 10, some 20, some 0] [12, 18, 5]).map
            fun ap => |ap.1 - ap.2|)) :=
  ⟨claim_C2.1 [none] [5] rfl,
   (claim_C2.2.1 [some 10, some 20, some 0] [12, 18, 5] (by simp [keptPairs])).1⟩

/-! ## Lemmas on the pandas rolling embedding -/

lemma pdShift1_length (l : List ℚ) : (pdShift1 l).length = l.length := by
  cases l <;> simp [pdShift1]

lemma filterMap_id_map_some (l : List ℚ) : (l.map some).filterMap id = l := by
  induction l with
  | nil => rfl
  | cons a t ih => simp [ih]

/-- For `w ≤ i < length`, the rolling window of the shifted series at
row `i` consists exactly of values `units[i−w … i−1]`, all present. -/
lemma pdWindow_full (units : List ℚ) (w i : ℕ) (hwi : w ≤ i) (hw : 1 ≤ w)
    (hin : i < units.length) :
    pdWindow (pdShift1 units) w i = ((units.drop (i - w)).take w).map some := by
  cases units with
  | nil => simp at hin
  | cons u t =>
    unfold pdWindow pdShift1
    have h1 : i + 1 - w = (i - w) + 1 := by omega
    rw [h1, List.take_succ_cons, List.drop_succ_cons, ← List.map_take, ← List.map_drop]
    congr 1
    rw [List.dropLast_eq_take, List.take_take]
    have hle : i ≤ (u :: t).length - 1 := by
      simp only [List.length_cons] at hin ⊢
      omega
    rw [min_eq_left hle, List.drop_take]
    have h3 : i - (i - w) = w := by omega
    rw [h3]

/-- For `i < w`, the window at row `i` still contains the missing cell
from the shift, so only the `i` values `units[0 … i−1]` are present. -/
lemma pdWindow_short (units : List ℚ) (w i : ℕ) (hiw : i < w)
    (hin : i < units.length) :
    (pdWindow (pdShift1 units) w i).filterMap id = units.take i := by
  cases units with
  | nil => simp at hin
  | cons u t =>
    unfold pdWindow pdShift1
    have h1 : i + 1 - w = 0 := by omega
    rw [h1, List.drop_zero, List.take_succ_cons]
    have hnone : ∀ (l : List (Option ℚ)), List.filterMap id (none :: l) = List.filterMap id l :=
      fun l => rfl
    rw [hnone, ← List.map_take, filterMap_id_map_some, List.dropLast_eq_take, List.take_take]
    have hle : i ≤ (u :: t).length - 1 := by
      simp only [List.length_cons] at hin ⊢
      omega
    rw [min_eq_left hle]

lemma pdRollingMean_get (s : List (Option ℚ)) (w i : ℕ) (hi : i < s.length) :
    (pdRollingMean s w).get? i = some (
      if ((pdWindow s w i).filterMap id).length = w
      then some (mean ((pdWindow s w i).filterMap id)) else none) := by
  unfold pdRollingMean
  rw [List.get?_map, List.get?_range hi]
  rfl

lemma pdRollingVar_get (s : List (Option ℚ)) (w i : ℕ) (hi : i < s.length) :
    (pdRollingVar s w).get? i = some (
      if ((pdWindow s w i).filterMap id).length = w
      then some (((((pdWindow s w i).filterMap id).map
          (fun x => (x - mean ((pdWindow s w i).filterMap id)) ^ 2)).sum : ℚ) / ((w : ℚ) - 1))
      else none) := by
  unfold pdRollingVar
  rw [List.get?_map, List.get?_range hi]
  rfl

/-- C4 is false as stated: in `build_features`, a row `i` with
`0 < i < w` gets a missing (`NaN`) rolling mean — pandas
`shift(1).rolling(w)` requires a full window — rather than the claimed
fallback to the mean of the `i` available prior values.  Concretely,
for `units_sold = [10, 20, 30]` and window 3 every rolling-mean cell is
missing, while the claim demands `mean [10, 20] = 15` at row 2. -/
theorem claim_C4_counterexample :
    hist_rolling_mean [10, 20, 30] 3 = [none, none, none]
    ∧ mean [10, 20] = 15 := by
  constructor
  · rfl
  · rw [show mean [(10:ℚ), 20] = 15 by simp [mean]; norm_num]

/-- C4 amended: the historical rolling features are computed on the
shifted series over strictly prior rows only and never raise (one
defined-or-missing cell per input row); for `w ≤ i` the cell at row `i`
holds the mean (resp. the sample standard deviation, represented by the
sample variance) of the `w` immediately preceding `units_sold` values;
for `i < w` (including `0 < i < w`) the cell is missing (`NaN`) — there
is no fallback to the mean of the available prior values in the
historical builder (that fallback exists only in
`build_future_features`). -/
theorem claim_C4 :
    (∀ (units : List ℚ) (w : ℕ),
        (hist_rolling_mean units w).length = units.length
        ∧ (hist_rolling_var units w).length = units.length)
    ∧ (∀ (units : List ℚ) (w i : ℕ), w ≤ i → 1 ≤ w → i < units.length →
        (hist_rolling_mean units w).get? i
          = some (some (mean ((units.drop (i - w)).take w))))
    ∧ (∀ (units : List ℚ) (w i : ℕ), i < w → i < units.length →
        (hist_rolling_mean units w).get? i = some none)
    ∧ (∀ (units : List ℚ) (w i : ℕ), w ≤ i → 2 ≤ w → i < units.length →
        (hist_rolling_var units w).get? i
          = some (some (((((units.drop (i - w)).take w).map
              (fun x => (x - mean ((units.drop (i - w)).take w)) ^ 2)).sum : ℚ) / ((w : ℚ) - 1))))
    ∧ (∀ (units : List ℚ) (w i : ℕ), i < w → i < units.length →
        (hist_rolling_var units w).get? i = some none) := by
  have hfull1 : ∀ (units : List ℚ) (w i : ℕ), w ≤ i → 1 ≤ w → i < units.length →
      (pdWindow (pdShift1 units) w i).filterMap id = (units.drop (i - w)).take w := by
    intro units w i hwi hw hin
    rw [pdWindow_full units w i hwi hw hin, filterMap_id_map_some]
  have hfull2 : ∀ (units : List ℚ) (w i : ℕ), w ≤ i → 1 ≤ w → i < units.length →
      ((pdWindow (pdShift1 units) w i).filterMap id).length = w := by
    intro units w i hwi hw hin
    rw [hfull1 units w i hwi hw hin, List.length_take, List.length_drop]
    omega
  have hshort : ∀ (units : List ℚ) (w i : ℕ), i < w → i < units.length →
      ((pdWindow (pdShift1 units) w i).filterMap id).length = i := by
    intro units w i hiw hin
    rw [pdWindow_short units w i hiw hin, List.length_take]
    omega
  refine ⟨?_, ?_, ?_, ?_, ?_⟩
  · intro units w
    constructor <;>
      simp [hist_rolling_mean, hist_rolling_var, pdRollingMean, pdRollingVar, pdShift1_length]
  · intro units w i hwi hw hin
    unfold hist_rolling_mean
    rw [pdRollingMean_get _ _ _ (by rw [pdShift1_length]; exact hin)]
    rw [if_pos (hfull2 units w i hwi hw hin), hfull1 units w i hwi hw hin]
  · intro units w i hiw hin
    unfold hist_rolling_mean
    rw [pdRollingMean_get _ _ _ (by rw [pdShift1_length]; exact hin)]
    rw [if_neg (by rw [hshort units w i hiw hin]; omega)]
  · intro units w i hwi hw hin
    unfold hist_rolling_var
    rw [pdRollingVar_get _ _ _ (by rw [pdShift1_length]; exact hin)]
    rw [if_pos (hfull2 units w i hwi (by omega) hin), hfull1 units w i hwi (by omega) hin]
  · intro units w i hiw hin
    unfold hist_rolling_var
    rw [pdRollingVar_get _ _ _ (by rw [pdShift1_length]; exact hin)]
    rw [if_neg (by rw [hshort units w i hiw hin]; omega)]

/-- Witness for C4 at concrete inputs. -/
theorem claim_C4_witness :
    (hist_rolling_mean [10, 20, 30, 40, 50] 3).get? 3
        = some (some (mean (([(10:ℚ), 20, 30, 40, 50].drop 0).take 3)))
    ∧ (hist_rolling_mean [10, 20, 30] 3).get? 2 = some none :=
  ⟨claim_C4.2.1 [10, 20, 30, 40, 50] 3 3 (by decide) (by decide) (by decide),
   claim_C4.2.2.1 [10, 20, 30] 3 2 (by decide) (by decide)⟩

/-! ## Lemmas on the future-feature builder -/

/-- The last `w` elements of the buffer, as the reversed `w`-prefix of
the reversal: equal to `h[-(w):]`. -/
lemma lastWindow_eq (h : List ℚ) (w : ℕ) :
    (h.reverse.take w).reverse = h.drop (h.length - w) := by
  rw [List.take_reverse, List.reverse_reverse]

/-- Stepping the seed by one synthetic value shifts `futureHistory`. -/
lemma futureHistory_shift (seed : List ℚ) (i : ℕ) :
    futureHistory (seed ++ [futRollingMean seed 3]) i = futureHistory seed (i + 1) := by
  induction i with
  | zero => rfl
  | succ i ih =>
    show futureHistory (seed ++ [futRollingMean seed 3]) i ++ _ = _
    rw [ih]
    rfl

/-- C7: `build_future_features` computes every future row from a buffer
that starts as `last_known_values` and, after each emitted row, is
extended by that row's own `rolling_mean_3` (a synthetic placeholder) —
no model prediction ever enters the buffer (the builder receives none);
row `i`'s `lag_k` is the `k`-th-from-last buffer element (`NaN` when the
buffer is shorter than `k`), its rolling means over windows are taken
over the last `window` buffer elements, falling back to the mean of the
whole buffer when shorter, and its rolling standard deviations (squared
here) likewise, falling back to `0`. -/
theorem claim_C7 :
    (∀ (seed : List ℚ) (n : ℕ),
        build_future_rows seed n = (List.range n).map fun i => futRow (futureHistory seed i))
    ∧ (∀ (seed : List ℚ) (n : ℕ), (build_future_rows seed n).length = n)
    ∧ (∀ seed : List ℚ, futureHistory seed 0 = seed)
    ∧ (∀ (seed : List ℚ) (i : ℕ),
        futureHistory seed (i + 1)
          = futureHistory seed i ++ [(futRow (futureHistory seed i)).rolling_mean 3])
    ∧ (∀ (h : List ℚ) (k : ℕ), 1 ≤ k → (futRow h).lag k = h.reverse.get? (k - 1))
    ∧ (∀ (h : List ℚ) (w : ℕ), w ≤ h.length → 1 ≤ w →
        (futRow h).rolling_mean w = (h.reverse.take w).reverse.sum / w)
    ∧ (∀ (h : List ℚ) (w : ℕ), h.length < w → h ≠ [] →
        (futRow h).rolling_mean w = h.sum / h.length)
    ∧ (∀ w : ℕ, ([] : List ℚ).length < w → (futRow []).rolling_mean w = 0)
    ∧ (∀ (h : List ℚ) (w : ℕ), w ≤ h.length → 1 ≤ w →
        (futRow h).rolling_var w
          = mean (((h.reverse.take w).reverse).map
              fun x => (x - mean ((h.reverse.take w).reverse)) ^ 2))
    ∧ (∀ (h : List ℚ) (w : ℕ), h.length < w → (futRow h).rolling_var w = 0) := by
  refine ⟨?_, ?_, fun _ => rfl, fun _ _ => rfl, ?_, ?_, ?_, ?_, ?_, ?_⟩
  · intro seed n
    induction n generalizing seed with
    | zero => rfl
    | succ n ih =>
      show futRow seed :: build_future_rows (seed ++ [futRollingMean seed 3]) n = _
      rw [ih, List.range_succ_eq_map, List.map_cons, List.map_map]
      congr 1
      exact List.map_congr_left fun i _ => by
        show futRow (futureHistory (seed ++ [futRollingMean seed 3]) i) = _
        rw [futureHistory_shift]
        rfl
  · intro seed n
    induction n generalizing seed with
    | zero => rfl
    | succ n ih =>
      show (futRow seed :: build_future_rows (seed ++ [futRollingMean seed 3]) n).length = n + 1
      rw [List.length_cons, ih]
  · intro h k hk
    show futLag h k = _
    unfold futLag
    split_ifs with hlen
    · exact (List.get?_eq_none.mpr (by rw [List.length_reverse]; omega)).symm
    · rw [List.get?_reverse (by omega)]
      congr 1
      omega
  · intro h w hw h1
    show futRollingMean h w = _
    unfold futRollingMean
    rw [if_pos hw, lastWindow_eq]
    unfold mean
    rw [List.length_drop, show h.length - (h.length - w) = w from by omega]
  · intro h w hw hne
    show futRollingMean h w = _
    unfold futRollingMean
    rw [if_neg (by omega), if_pos hne]
    rfl
  · intro w hw
    show futRollingMean [] w = _
    unfold futRollingMean
    rw [if_neg (by simp at hw ⊢; omega), if_neg (by simp)]
  · intro h w hw h1
    show futRollingVar h w = _
    unfold futRollingVar
    rw [if_pos hw, lastWindow_eq]
  · intro h w hw
    show futRollingVar h w = _
    unfold futRollingVar
    rw [if_neg (by omega)]

/-- Witness for C7 at concrete inputs. -/
theorem claim_C7_witness :
    (futRow [1, 2, 3]).lag 2 = ([1, 2, 3] : List ℚ).reverse.get? 1
    ∧ (futRow [1, 2, 3, 4]).rolling_mean 3
        = (([1, 2, 3, 4] : List ℚ).reverse.take 3).reverse.sum / 3
    ∧ (futRow [1, 2]).rolling_mean 3 = ([1, 2] : List ℚ).sum / ([1, 2] : List ℚ).length
    ∧ (futRow [1, 2]).rolling_var 3 = 0 :=
  ⟨claim_C7.2.2.2.2.1 [1, 2, 3] 2 (by decide),
   claim_C7.2.2.2.2.2.1 [1, 2, 3, 4] 3 (by decide) (by decide),
   claim_C7.2.2.2.2.2.2.1 [1, 2] 3 (by decide) (by decide),
   claim_C7.2.2.2.2.2.2.2.2.2 [1, 2] 3 (by decide)⟩

/-! ## Lemmas on the model adapters -/

lemma zipWith_nonneg {f : ℚ → ℚ → ℚ} (h : ∀ a b, 0 ≤ f a b) :
    ∀ (as bs : List ℚ), ∀ x ∈ List.zipWith f as bs, 0 ≤ x := by
  intro as
  induction as with
  | nil => intro bs x hx; simp at hx
  | cons a t ih =>
    intro bs x hx
    cases bs with
    | nil => simp at hx
    | cons b s =>
      rw [List.zipWith_cons_cons, List.mem_cons] at hx
      rcases hx with rfl | hx
      · exact h a b
      · exact ih s x hx

lemma prophet_ok_spec (fit : List PRow → ℤ → ℕ → ℚ) (df : List PRow) (fy : ℤ)
    (preds : List ℚ) (h : train_and_predict_prophet fit df fy = .ok preds) :
    preds = ((List.range 12).map fun m =>
        fit (df.filter fun r => r.year < fy) fy (m + 1)).map (fun yhat => max yhat 0)
    ∧ preds.length = 12 ∧ ∀ p ∈ preds, 0 ≤ p := by
  simp only [train_and_predict_prophet] at h
  split at h
  · exact absurd h (by simp)
  · rw [Except.ok.injEq] at h
    subst h
    refine ⟨rfl, by simp, ?_⟩
    intro p hp
    obtain ⟨yhat, _, hy⟩ := List.mem_map.mp hp
    rw [← hy]
    exact le_max_right _ _

lemma prophet_filter_inv (fit : List PRow → ℤ → ℕ → ℚ) (df df' : List PRow) (fy : ℤ)
    (h : df.filter (fun r => r.year < fy) = df'.filter (fun r => r.year < fy)) :
    train_and_predict_prophet fit df fy = train_and_predict_prophet fit df' fy := by
  unfold train_and_predict_prophet
  rw [h]

lemma prophet_insufficient (fit : List PRow → ℤ → ℕ → ℚ) (df : List PRow) (fy : ℤ)
    (h : (df.filter (fun r => r.year < fy)).length < 12) :
    train_and_predict_prophet fit df fy
      = .error ("Insufficient training data: "
          ++ toString (df.filter (fun r => r.year < fy)).length ++ " rows (need ≥ 12)") := by
  simp only [train_and_predict_prophet]
  rw [if_pos h]

lemma xgb_ok_spec (fit : List (List ℚ × ℚ) → List ℚ → ℚ) (df : List XRow) (fy : ℤ)
    (fut : List (List (Option ℚ))) (preds : List ℚ)
    (h : train_and_predict_xgboost fit df fy (some fut) = .ok preds) :
    preds = (fut.map fun row =>
        fit ((xgbTrain df fy).map fun r => (fillna0 r.features, r.units_sold))
          (fillna0 row)).map (fun yhat => max yhat 0)
    ∧ preds.length = fut.length ∧ ∀ p ∈ preds, 0 ≤ p := by
  simp only [train_and_predict_xgboost] at h
  split at h
  · exact absurd h (by simp)
  · rw [Except.ok.injEq] at h
    subst h
    refine ⟨rfl, by simp, ?_⟩
    intro p hp
    obtain ⟨yhat, _, hy⟩ := List.mem_map.mp hp
    rw [← hy]
    exact le_max_right _ _

lemma xgb_filter_inv (fit : List (List ℚ × ℚ) → List ℚ → ℚ) (df df' : List XRow) (fy : ℤ)
    (futo : Option (List (List (Option ℚ))))
    (h : df.filter (fun r => r.year < fy) = df'.filter (fun r => r.year < fy)) :
    train_and_predict_xgboost fit df fy futo = train_and_predict_xgboost fit df' fy futo := by
  unfold train_and_predict_xgboost xgbTrain
  rw [h]

lemma xgb_insufficient (fit : List (List ℚ × ℚ) → List ℚ → ℚ) (df : List XRow) (fy : ℤ)
    (futo : Option (List (List (Option ℚ))))
    (h : (xgbTrain df fy).length < 12) :
    train_and_predict_xgboost fit df fy futo
      = .error ("Insufficient training data: "
          ++ toString (xgbTrain df fy).length ++ " rows (need ≥ 12)") := by
  simp only [train_and_predict_xgboost]
  rw [if_pos h]

lemma xgbTrain_length_le (df : List XRow) (fy : ℤ) :
    (xgbTrain df fy).length ≤ (df.filter fun r => r.year < fy).length :=
  List.length_filter_le _ _

lemma xgb_insufficient_year (fit : List (List ℚ × ℚ) → List ℚ → ℚ) (df : List XRow)
    (fy : ℤ) (futo : Option (List (List (Option ℚ))))
    (h : (df.filter fun r => r.year < fy).length < 12) :
    train_and_predict_xgboost fit df fy futo
      = .error ("Insufficient training data: "
          ++ toString (xgbTrain df fy).length ++ " rows (need ≥ 12)") :=
  xgb_insufficient fit df fy futo (lt_of_le_of_lt (xgbTrain_length_le df fy) h)

lemma sarimax_ok_spec (fit) (df : List SRow) (fy : ℤ) (ex : Bool)
    (futex : Option (List (List ℚ))) (preds : List ℚ)
    (h : train_and_predict_sarimax fit df fy ex futex = .ok preds) :
    preds.length = 12 ∧ ∀ p ∈ preds, 0 ≤ p := by
  simp only [train_and_predict_sarimax] at h
  split at h
  · exact absurd h (by simp)
  · split at h
    all_goals first
      | (rw [Except.ok.injEq] at h
         subst h
         refine ⟨by simp, ?_⟩
         intro p hp
         obtain ⟨yhat, _, hy⟩ := List.mem_map.mp hp
         rw [← hy]
         exact le_max_right _ _)
      | (split at h
         · rw [Except.ok.injEq] at h
           subst h
           refine ⟨by simp, ?_⟩
           intro p hp
           obtain ⟨yhat, _, hy⟩ := List.mem_map.mp hp
           rw [← hy]
           exact le_max_right _ _
         · exact absurd h (by simp))

lemma sarimax_filter_inv (fit) (df df' : List SRow) (fy : ℤ) (ex : Bool)
    (futex : Option (List (List ℚ)))
    (h : df.filter (fun r => r.year < fy) = df'.filter (fun r => r.year < fy)) :
    train_and_predict_sarimax fit df fy ex futex
      = train_and_predict_sarimax fit df' fy ex futex := by
  unfold train_and_predict_sarimax
  rw [h]

lemma hybrid_filter_len (df : List HRow) (fy : ℤ) :
    ((df.map fun r => (⟨r.year, r.month, r.units_sold⟩ : PRow)).filter
        (fun r => r.year < fy)).length
      = (df.filter (fun r => r.year < fy)).length := by
  rw [List.filter_map, List.length_map]
  rfl

lemma hybrid_ok_spec (pfit : List PRow → ℤ → ℕ → ℚ) (xfit : List (List ℚ × ℚ) → List ℚ → ℚ)
    (df : List HRow) (fy : ℤ) (futo : Option (List (List (Option ℚ)))) (w : ℚ)
    (preds : List ℚ)
    (h : train_and_predict_hybrid pfit xfit df fy futo w = .ok preds) :
    (∀ p ∈ preds, 0 ≤ p)
    ∧ (∀ fut : List (List (Option ℚ)),
        futo = some fut → fut.length = 12 → preds.length = 12) := by
  unfold train_and_predict_hybrid at h
  cases hp : train_and_predict_prophet pfit
      (df.map fun r => ⟨r.year, r.month, r.units_sold⟩) fy with
  | error e => rw [hp] at h; exact absurd h (by simp)
  | ok pp =>
    rw [hp] at h
    cases hx : train_and_predict_xgboost xfit
        (df.map fun r => ⟨r.year, r.features, r.units_sold⟩) fy futo with
    | error e => rw [hx] at h; exact absurd h (by simp)
    | ok xp =>
      rw [hx] at h
      rw [show (match (Except.ok pp : Except String (List ℚ)) with
          | .error e => Except.error e
          | .ok prophet_preds =>
            (match (Except.ok xp : Except String (List ℚ)) with
              | .error e => Except.error e
              | .ok xgb_preds => Except.ok (prophet_preds.zipWith
                  (fun p x => max 0 (w * p + (1 - w) * x)) xgb_preds)))
          = Except.ok (pp.zipWith (fun p x => max 0 (w * p + (1 - w) * x)) xp) from rfl,
        Except.ok.injEq] at h
      subst h
      constructor
      · exact zipWith_nonneg (fun a b => le_max_left 0 _) _ _
      · intro fut hfut hflen
        subst hfut
        obtain ⟨_, hplen, _⟩ := prophet_ok_spec _ _ _ _ hp
        obtain ⟨_, hxlen, _⟩ := xgb_ok_spec _ _ _ _ _ hx
        rw [List.length_zipWith, hplen, hxlen, hflen]
        exact min_self 12

lemma hybrid_insufficient (pfit : List PRow → ℤ → ℕ → ℚ)
    (xfit : List (List ℚ × ℚ) → List ℚ → ℚ)
    (df : List HRow) (fy : ℤ) (futo : Option (List (List (Option ℚ)))) (w : ℚ)
    (h : (df.filter (fun r => r.year < fy)).length < 12) :
    train_and_predict_hybrid pfit xfit df fy futo w
      = .error ("Insufficient training data: "
          ++ toString (df.filter (fun r => r.year < fy)).length ++ " rows (need ≥ 12)") := by
  have hp := prophet_insufficient pfit (df.map fun r => ⟨r.year, r.month, r.units_sold⟩) fy
    (by rw [hybrid_filter_len]; exact h)
  simp only [train_and_predict_hybrid, hp, hybrid_filter_len]

lemma futureDates_length : ∀ (last : ℤ × ℕ) (n : ℕ), (futureDates last n).length = n
  | _, 0 => rfl
  | last, n + 1 => by
    rw [futureDates, List.length_cons, futureDates_length (nextMonth last) n]

lemma futureDates_dec (fy : ℤ) :
    futureDates (fy, 12) 12
      = [(fy + 1, 1), (fy + 1, 2), (fy + 1, 3), (fy + 1, 4), (fy + 1, 5), (fy + 1, 6),
         (fy + 1, 7), (fy + 1, 8), (fy + 1, 9), (fy + 1, 10), (fy + 1, 11), (fy + 1, 12)] := by
  simp [futureDates, nextMonth]

/-- Counterexample to C8's "12 consecutive months of the target year":
the future feature table that `run_forecast` hands XGBoost and the
blended model spans the 12 months after the last historical date.  With
history ending 2024-06 and target year 2025 those months are
2024-07 … 2025-06, not Jan–Dec 2025; they are Jan–Dec 2025 exactly when
history ends at 2024-12. -/
theorem claim_C8_counterexample :
    futureDates (2024, 6) 12
      = [(2024, 7), (2024, 8), (2024, 9), (2024, 10), (2024, 11), (2024, 12),
         (2025, 1), (2025, 2), (2025, 3), (2025, 4), (2025, 5), (2025, 6)]
    ∧ futureDates (2024, 6) 12 ≠ (List.range 12).map (fun m => ((2025 : ℤ), m + 1))
    ∧ futureDates (2024, 12) 12 = (List.range 12).map (fun m => ((2025 : ℤ), m + 1)) :=
  ⟨by decide, by decide, by decide⟩

/-- C8 (amended): each adapter trains only on rows whose calendar year
is strictly below the target year (its output is invariant under any
change to the other rows), and on success every returned prediction is
clipped non-negative.  Prophet returns 12 predictions explicitly for
months 1–12 of the target year.  XGBoost returns one prediction per row
of the supplied future-feature table (each row `fillna(0)`-completed),
and the table's calendar months are the `n` consecutive months after
the last historical date — all 12 months of the year after a history
ending in December, but NOT the target year's months in general (see
the counterexample).  XGBoost's insufficiency guard counts the training
rows that survive the year filter AND the feature-column `dropna`, and
reports that count; fewer than 12 year-filtered rows always trigger it,
since `dropna` only shrinks the frame.  SARIMAX returns 12 clipped
predictions (the 12 forecast steps after training end).  The blended
model inherits the Prophet-side insufficiency failure and blends
pointwise, giving 12 predictions from a 12-row future table. -/
theorem claim_C8 :
    -- Prophet
    (∀ (fit : List PRow → ℤ → ℕ → ℚ) (df : List PRow) (fy : ℤ) (preds : List ℚ),
        train_and_predict_prophet fit df fy = .ok preds →
        preds = ((List.range 12).map fun m =>
            fit (df.filter fun r => r.year < fy) fy (m + 1)).map (fun yhat => max yhat 0)
        ∧ preds.length = 12 ∧ ∀ p ∈ preds, 0 ≤ p)
    ∧ (∀ (fit : List PRow → ℤ → ℕ → ℚ) (df df' : List PRow) (fy : ℤ),
        df.filter (fun r => r.year < fy) = df'.filter (fun r => r.year < fy) →
        train_and_predict_prophet fit df fy = train_and_predict_prophet fit df' fy)
    ∧ (∀ (fit : List PRow → ℤ → ℕ → ℚ) (df : List PRow) (fy : ℤ),
        (df.filter (fun r => r.year < fy)).length < 12 →
        train_and_predict_prophet fit df fy
          = .error ("Insufficient training data: "
              ++ toString (df.filter (fun r => r.year < fy)).length ++ " rows (need ≥ 12)"))
    -- XGBoost
    ∧ (∀ (fit : List (List ℚ × ℚ) → List ℚ → ℚ) (df : List XRow) (fy : ℤ)
        (fut : List (List (Option ℚ))) (preds : List ℚ),
        train_and_predict_xgboost fit df fy (some fut) = .ok preds →
        preds = (fut.map fun row =>
            fit ((xgbTrain df fy).map fun r => (fillna0 r.features, r.units_sold))
              (fillna0 row)).map (fun yhat => max yhat 0)
        ∧ preds.length = fut.length ∧ ∀ p ∈ preds, 0 ≤ p)
    ∧ (∀ (fit : List (List ℚ × ℚ) → List ℚ → ℚ) (df df' : List XRow) (fy : ℤ)
        (futo : Option (List (List (Option ℚ)))),
        df.filter (fun r => r.year < fy) = df'.filter (fun r => r.year < fy) →
        train_and_predict_xgboost fit df fy futo = train_and_predict_xgboost fit df' fy futo)
    ∧ (∀ (fit : List (List ℚ × ℚ) → List ℚ → ℚ) (df : List XRow) (fy : ℤ)
        (futo : Option (List (List (Option ℚ)))),
        (xgbTrain df fy).length < 12 →
        train_and_predict_xgboost fit df fy futo
          = .error ("Insufficient training data: "
              ++ toString (xgbTrain df fy).length ++ " rows (need ≥ 12)"))
    ∧ (∀ (fit : List (List ℚ × ℚ) → List ℚ → ℚ) (df : List XRow) (fy : ℤ)
        (futo : Option (List (List (Option ℚ)))),
        (df.filter fun r => r.year < fy).length < 12 →
        train_and_predict_xgboost fit df fy futo
          = .error ("Insufficient training data: "
              ++ toString (xgbTrain df fy).length ++ " rows (need ≥ 12)"))
    -- Future-table calendar months
    ∧ (∀ (last : ℤ × ℕ) (n : ℕ), (futureDates last n).length = n)
    ∧ (∀ fy : ℤ, futureDates (fy, 12) 12
        = [(fy + 1, 1), (fy + 1, 2), (fy + 1, 3), (fy + 1, 4), (fy + 1, 5), (fy + 1, 6),
           (fy + 1, 7), (fy + 1, 8), (fy + 1, 9), (fy + 1, 10), (fy + 1, 11), (fy + 1, 12)])
    -- SARIMAX
    ∧ (∀ fit (df : List SRow) (fy : ℤ) (ex : Bool) (futex : Option (List (List ℚ)))
        (preds : List ℚ),
        train_and_predict_sarimax fit df fy ex futex = .ok preds →
        preds.length = 12 ∧ ∀ p ∈ preds, 0 ≤ p)
    ∧ (∀ fit (df df' : List SRow) (fy : ℤ) (ex : Bool) (futex : Option (List (List ℚ))),
        df.filter (fun r => r.year < fy) = df'.filter (fun r => r.year < fy) →
        train_and_predict_sarimax fit df fy ex futex
          = train_and_predict_sarimax fit df' fy ex futex)
    -- Hybrid
    ∧ (∀ (pfit : List PRow → ℤ → ℕ → ℚ) (xfit : List (List ℚ × ℚ) → List ℚ → ℚ)
        (df : List HRow) (fy : ℤ) (futo : Option (List (List (Option ℚ)))) (w : ℚ)
        (preds : List ℚ),
        train_and_predict_hybrid pfit xfit df fy futo w = .ok preds →
        (∀ p ∈ preds, 0 ≤ p)
        ∧ (∀ fut : List (List (Option ℚ)),
            futo = some fut → fut.length = 12 → preds.length = 12))
    ∧ (∀ (pfit : List PRow → ℤ → ℕ → ℚ) (xfit : List (List ℚ × ℚ) → List ℚ → ℚ)
        (df : List HRow) (fy : ℤ) (futo : Option (List (List (Option ℚ)))) (w : ℚ),
        (df.filter (fun r => r.year < fy)).length < 12 →
        train_and_predict_hybrid pfit xfit df fy futo w
          = .error ("Insufficient training data: "
              ++ toString (df.filter (fun r => r.year < fy)).length ++ " rows (need ≥ 12)")) := by
  exact ⟨fun fit df fy preds h => prophet_ok_spec fit df fy preds h,
    fun fit df df' fy h => prophet_filter_inv fit df df' fy h,
    fun fit df fy h => prophet_insufficient fit df fy h,
    fun fit df fy fut preds h => xgb_ok_spec fit df fy fut preds h,
    fun fit df df' fy futo h => xgb_filter_inv fit df df' fy futo h,
    fun fit df fy futo h => xgb_insufficient fit df fy futo h,
    fun fit df fy futo h => xgb_insufficient_year fit df fy futo h,
    fun last n => futureDates_length last n,
    fun fy => futureDates_dec fy,
    fun fit df fy ex futex preds h => sarimax_ok_spec fit df fy ex futex preds h,
    fun fit df df' fy ex futex h => sarimax_filter_inv fit df df' fy ex futex h,
    fun pfit xfit df fy futo w preds h => hybrid_ok_spec pfit xfit df fy futo w preds h,
    fun pfit xfit df fy futo w h => hybrid_insufficient pfit xfit df fy futo w h⟩

/-- Witness for C8 at concrete inputs: a 12-row 2024 frame for Prophet
(month-attributed output, and training invariant to appending a 2025
row); a complete 12-row frame plus a one-row future table for the
XGBoost success shape; a frame with 12 year-filtered rows of which one
carries a missing feature cell, for the post-`dropna` insufficiency
count 11; an empty frame for the year-filter insufficiency direction
and the hybrid failure; and a 24-row frame for SARIMAX. -/
theorem claim_C8_witness :
    ((((List.range 12).map fun _ => (3:ℚ)).map fun yhat => max yhat 0)
        = ((List.range 12).map fun _ => (3:ℚ)).map (fun yhat => max yhat 0)
      ∧ (((List.range 12).map fun _ => (3:ℚ)).map fun yhat => max yhat 0).length = 12
      ∧ ∀ p ∈ ((List.range 12).map fun _ => (3:ℚ)).map fun yhat => max yhat 0, 0 ≤ p)
    ∧ train_and_predict_prophet (fun _ _ _ => (3:ℚ))
        (((List.range 12).map fun m => (⟨2024, m + 1, 10⟩ : PRow)) ++ [⟨2025, 1, 7⟩]) 2025
      = train_and_predict_prophet (fun _ _ _ => (3:ℚ))
        ((List.range 12).map fun m => (⟨2024, m + 1, 10⟩ : PRow)) 2025
    ∧ ([max (4:ℚ) 0]
        = ([[(none : Option ℚ)]].map fun _ => (4:ℚ)).map (fun yhat => max yhat 0)
      ∧ [max (4:ℚ) 0].length = [[(none : Option ℚ)]].length
      ∧ ∀ p ∈ [max (4:ℚ) 0], 0 ≤ p)
    ∧ (((((List.range 11).map fun _ => (⟨2024, [some 1], 10⟩ : XRow))
            ++ ([⟨2024, [(none : Option ℚ)], 10⟩] : List XRow)).filter fun r => r.year < 2025).length = 12
      ∧ (xgbTrain (((List.range 11).map fun _ => (⟨2024, [some 1], 10⟩ : XRow))
            ++ ([⟨2024, [(none : Option ℚ)], 10⟩] : List XRow)) 2025).length = 11
      ∧ train_and_predict_xgboost (fun _ _ => (4:ℚ))
            (((List.range 11).map fun _ => (⟨2024, [some 1], 10⟩ : XRow))
              ++ ([⟨2024, [(none : Option ℚ)], 10⟩] : List XRow)) 2025 none
          = .error ("Insufficient training data: "
              ++ toString (xgbTrain (((List.range 11).map fun _ =>
                    (⟨2024, [some 1], 10⟩ : XRow))
                  ++ ([⟨2024, [(none : Option ℚ)], 10⟩] : List XRow)) 2025).length ++ " rows (need ≥ 12)"))
    ∧ train_and_predict_xgboost (fun _ _ => (4:ℚ)) ([] : List XRow) 2025 none
      = .error ("Insufficient training data: "
          ++ toString (xgbTrain ([] : List XRow) 2025).length ++ " rows (need ≥ 12)")
    ∧ ((((List.range 12).map (fun _ => (5:ℚ))).map fun p => max p 0).length = 12
      ∧ ∀ p ∈ ((List.range 12).map (fun _ => (5:ℚ))).map fun p => max p 0, 0 ≤ p)
    ∧ train_and_predict_hybrid (fun _ _ _ => (3:ℚ)) (fun _ _ => (4:ℚ))
        ([] : List HRow) 2025 none (1/2)
      = .error ("Insufficient training data: "
          ++ toString (([] : List HRow).filter (fun r => r.year < 2025)).length
          ++ " rows (need ≥ 12)") :=
  ⟨claim_C8.1 (fun _ _ _ => 3)
      ((List.range 12).map fun m => (⟨2024, m + 1, 10⟩ : PRow)) 2025
      (((List.range 12).map fun _ => (3:ℚ)).map fun yhat => max yhat 0) rfl,
   claim_C8.2.1 (fun _ _ _ => 3)
      (((List.range 12).map fun m => (⟨2024, m + 1, 10⟩ : PRow)) ++ [⟨2025, 1, 7⟩])
      ((List.range 12).map fun m => (⟨2024, m + 1, 10⟩ : PRow)) 2025 rfl,
   claim_C8.2.2.2.1 (fun _ _ => 4)
      ((List.range 12).map fun _ => (⟨2024, [some 1], 10⟩ : XRow)) 2025
      [[(none : Option ℚ)]] [max (4:ℚ) 0] rfl,
   ⟨by decide, by decide,
    claim_C8.2.2.2.2.2.1 (fun _ _ => 4)
      (((List.range 11).map fun _ => (⟨2024, [some 1], 10⟩ : XRow))
        ++ ([⟨2024, [(none : Option ℚ)], 10⟩] : List XRow)) 2025 none (by decide)⟩,
   claim_C8.2.2.2.2.2.2.1 (fun _ _ => 4) [] 2025 none (by decide),
   claim_C8.2.2.2.2.2.2.2.2.2.1 (fun _ _ _ _ => .ok fun _ _ => 5)
      ((List.range 24).map fun _ => (⟨2023, 10, []⟩ : SRow)) 2025 false none _ rfl,
   claim_C8.2.2.2.2.2.2.2.2.2.2.2.2 (fun _ _ _ => 3) (fun _ _ => 4) [] 2025 none (1/2)
      (by decide)⟩

/-- C9: the SARIMAX adapter (a) fails with the insufficient-data error
whenever fewer than 24 training rows remain after the year filter;
(b) when exogenous columns are used and no future exogenous frame is
supplied, the 12 future exogenous rows passed to the forecast are each
column's historical mean replicated 12 times; (c) when the default
order `(1,1,1)(1,1,1,12)` fit raises it retries exactly once with
`(1,0,0)(1,0,0,12)` (the adapter's outcome depends on the fitter only
at those two orders), succeeding silently if the retry fits, and
otherwise failing with a message carrying both error texts. -/
theorem claim_C9 :
    (∀ fit (df : List SRow) (fy : ℤ) (ex : Bool) (futex : Option (List (List ℚ))),
        ((df.filter (fun r => r.year < fy)).map fun r => r.units_sold).length < 24 →
        train_and_predict_sarimax fit df fy ex futex
          = .error ("Insufficient training data: "
              ++ toString ((df.filter (fun r => r.year < fy)).map fun r => r.units_sold).length
              ++ " rows (need ≥ 24)"))
    ∧ (∀ rows : List (List ℚ), computeExogFuture rows none = List.replicate 12 (colMeans rows))
    ∧ (∀ fit (df : List SRow) (fy : ℤ)
        (model : Option (List (List ℚ)) → ℕ → ℚ),
        ¬ ((df.filter (fun r => r.year < fy)).map fun r => r.units_sold).length < 24 →
        fit ((1 : ℤ), (1 : ℤ), (1 : ℤ)) ((1 : ℤ), (1 : ℤ), (1 : ℤ), (12 : ℤ))
            ((df.filter (fun r => r.year < fy)).map fun r => r.units_sold)
            (some ((df.filter (fun r => r.year < fy)).map fun r => r.exog)) = .ok model →
        train_and_predict_sarimax fit df fy true none
          = .ok (((List.range 12).map (model (some (List.replicate 12
              (colMeans ((df.filter (fun r => r.year < fy)).map fun r => r.exog)))))).map
                fun p => max p 0))
    ∧ (∀ fit (df : List SRow) (fy : ℤ) (futex : Option (List (List ℚ)))
        (e : String) (model2 : Option (List (List ℚ)) → ℕ → ℚ),
        ¬ ((df.filter (fun r => r.year < fy)).map fun r => r.units_sold).length < 24 →
        fit ((1 : ℤ), (1 : ℤ), (1 : ℤ)) ((1 : ℤ), (1 : ℤ), (1 : ℤ), (12 : ℤ))
            ((df.filter (fun r => r.year < fy)).map fun r => r.units_sold) none = .error e →
        fit ((1 : ℤ), (0 : ℤ), (0 : ℤ)) ((1 : ℤ), (0 : ℤ), (0 : ℤ), (12 : ℤ))
            ((df.filter (fun r => r.year < fy)).map fun r => r.units_sold) none = .ok model2 →
        train_and_predict_sarimax fit df fy false futex
          = .ok (((List.range 12).map (model2 none)).map fun p => max p 0))
    ∧ (∀ fit (df : List SRow) (fy : ℤ) (futex : Option (List (List ℚ))) (e e2 : String),
        ¬ ((df.filter (fun r => r.year < fy)).map fun r => r.units_sold).length < 24 →
        fit ((1 : ℤ), (1 : ℤ), (1 : ℤ)) ((1 : ℤ), (1 : ℤ), (1 : ℤ), (12 : ℤ))
            ((df.filter (fun r => r.year < fy)).map fun r => r.units_sold) none = .error e →
        fit ((1 : ℤ), (0 : ℤ), (0 : ℤ)) ((1 : ℤ), (0 : ℤ), (0 : ℤ), (12 : ℤ))
            ((df.filter (fun r => r.year < fy)).map fun r => r.units_sold) none = .error e2 →
        train_and_predict_sarimax fit df fy false futex
          = .error ("SARIMAX training failed: " ++ e ++ " | " ++ e2)
        ∧ (∃ a b, "SARIMAX training failed: " ++ e ++ " | " ++ e2 = a ++ (e ++ b))
        ∧ (∃ a b, "SARIMAX training failed: " ++ e ++ " | " ++ e2 = a ++ (e2 ++ b)))
    ∧ (∀ fit fit' (df : List SRow) (fy : ℤ) (ex : Bool) (futex : Option (List (List ℚ))),
        (∀ o so, fit o so ((df.filter (fun r => r.year < fy)).map fun r => r.units_sold)
            (if ex = true then some ((df.filter (fun r => r.year < fy)).map fun r => r.exog)
             else none)
          = fit' o so ((df.filter (fun r => r.year < fy)).map fun r => r.units_sold)
            (if ex = true then some ((df.filter (fun r => r.year < fy)).map fun r => r.exog)
             else none)) →
        train_and_predict_sarimax fit df fy ex futex
          = train_and_predict_sarimax fit' df fy ex futex) := by
  refine ⟨?_, fun rows => rfl, ?_, ?_, ?_, ?_⟩
  · intro fit df fy ex futex h24
    simp only [train_and_predict_sarimax]
    rw [if_pos h24]
  · intro fit df fy model h24 hfit
    simp only [train_and_predict_sarimax]
    rw [if_neg h24]
    simp only [if_true, computeExogFuture]
    rw [hfit]
  · intro fit df fy futex e model2 h24 hfit1 hfit2
    simp only [train_and_predict_sarimax]
    rw [if_neg h24]
    simp only [Bool.false_eq_true, if_false]
    rw [hfit1, hfit2]
  · intro fit df fy futex e e2 h24 hfit1 hfit2
    refine ⟨?_, ⟨"SARIMAX training failed: ", " | " ++ e2, ?_⟩,
      ⟨"SARIMAX training failed: " ++ e ++ " | ", "", ?_⟩⟩
    · simp only [train_and_predict_sarimax]
      rw [if_neg h24]
      simp only [Bool.false_eq_true, if_false]
      rw [hfit1, hfit2]
    · rw [String.append_assoc, String.append_assoc]
    · rw [String.append_empty]
  · intro fit fit' df fy ex futex hagree
    simp only [train_and_predict_sarimax]
    rw [hagree ((1 : ℤ), (1 : ℤ), (1 : ℤ)) ((1 : ℤ), (1 : ℤ), (1 : ℤ), (12 : ℤ)),
      hagree ((1 : ℤ), (0 : ℤ), (0 : ℤ)) ((1 : ℤ), (0 : ℤ), (0 : ℤ), (12 : ℤ))]

/-- Witness for C9 at concrete inputs: a 24-row frame; a fitter whose
default order fails and whose retry order succeeds or fails. -/
theorem claim_C9_witness :
    train_and_predict_sarimax (fun _ _ _ _ => .ok fun _ _ => (5:ℚ))
        ([] : List SRow) 2025 false none
      = .error ("Insufficient training data: "
          ++ toString ((([] : List SRow).filter (fun r => r.year < 2025)).map
              fun r => r.units_sold).length ++ " rows (need ≥ 24)")
    ∧ computeExogFuture [[1, 3], [3, 5]] none = List.replicate 12 (colMeans [[1, 3], [3, 5]])
    ∧ train_and_predict_sarimax
        (fun o _ _ _ => if o = ((1 : ℤ), (1 : ℤ), (1 : ℤ)) then .error "fail1"
          else .ok fun _ _ => (7:ℚ))
        ((List.range 24).map fun _ => (⟨2023, 10, []⟩ : SRow)) 2025 false none
      = .ok (((List.range 12).map ((fun (_ : Option (List (List ℚ))) (_ : ℕ) => (7:ℚ)) none)).map
          fun p => max p 0)
    ∧ train_and_predict_sarimax
        (fun o _ _ _ => if o = ((1 : ℤ), (1 : ℤ), (1 : ℤ)) then .error "fail1" else .error "fail2")
        ((List.range 24).map fun _ => (⟨2023, 10, []⟩ : SRow)) 2025 false none
      = .error ("SARIMAX training failed: " ++ "fail1" ++ " | " ++ "fail2") :=
  ⟨claim_C9.1 (fun _ _ _ _ => .ok fun _ _ => (5:ℚ)) [] 2025 false none (by decide),
   claim_C9.2.1 [[1, 3], [3, 5]],
   claim_C9.2.2.2.1
     (fun o _ _ _ => if o = ((1 : ℤ), (1 : ℤ), (1 : ℤ)) then .error "fail1"
       else .ok fun _ _ => (7:ℚ))
     ((List.range 24).map fun _ => (⟨2023, 10, []⟩ : SRow)) 2025 none "fail1"
     (fun _ _ => (7:ℚ)) (by decide) rfl rfl,
   (claim_C9.2.2.2.2.1
     (fun o _ _ _ => if o = ((1 : ℤ), (1 : ℤ), (1 : ℤ)) then .error "fail1" else .error "fail2")
     ((List.range 24).map fun _ => (⟨2023, 10, []⟩ : SRow)) 2025 none "fail1" "fail2"
     (by decide) rfl rfl).1⟩

/-! ## Lemmas on the fallback walk -/

/-- If every model before `f` in the remaining fallback list fails and
`f` succeeds, the walk stops at `f` and labels it `"<f> (fallback)"`,
whatever errors have accumulated. -/
lemma tryFallbacks_first_success (run : String → Except String (List ℚ)) :
    ∀ (pre acc : List String) (f : String) (post : List String) (preds : List ℚ),
    (∀ g ∈ pre, ∃ eg, run g = .error eg) → run f = .ok preds →
    tryFallbacks run acc (pre ++ f :: post) = .ok (preds, f ++ " (fallback)") := by
  intro pre
  induction pre with
  | nil =>
    intro acc f post preds _ hf
    rw [List.nil_append]
    show (match run f with
      | Except.ok preds => Except.ok (preds, f ++ " (fallback)")
      | Except.error e2 =>
          tryFallbacks run (acc ++ ["Fallback " ++ f ++ ": " ++ e2]) post) = _
    rw [hf]
  | cons g t ih =>
    intro acc f post preds hpre hf
    obtain ⟨eg, hg⟩ := hpre g (List.mem_cons_self g t)
    rw [List.cons_append]
    show (match run g with
      | Except.ok preds => Except.ok (preds, g ++ " (fallback)")
      | Except.error e2 =>
          tryFallbacks run (acc ++ ["Fallback " ++ g ++ ": " ++ e2]) (t ++ f :: post)) = _
    rw [hg]
    exact ih _ f post preds (fun g' hg' => hpre g' (List.mem_cons_of_mem _ hg')) hf

/-- If every remaining fallback fails, the walk exhausts the list and
raises the aggregate error over the accumulated error lines. -/
lemma tryFallbacks_all_fail (run : String → Except String (List ℚ)) (errf : String → String) :
    ∀ (fbs acc : List String),
    (∀ g ∈ fbs, run g = .error (errf g)) →
    tryFallbacks run acc fbs
      = .error ("All models failed. Details: " ++ pyJoin "; "
          (acc ++ fbs.map fun g => "Fallback " ++ g ++ ": " ++ errf g)) := by
  intro fbs
  induction fbs with
  | nil =>
    intro acc _
    rw [List.map_nil, List.append_nil]
    rfl
  | cons g t ih =>
    intro acc hfail
    show (match run g with
      | Except.ok preds => Except.ok (preds, g ++ " (fallback)")
      | Except.error e2 =>
          tryFallbacks run (acc ++ ["Fallback " ++ g ++ ": " ++ e2]) t) = _
    rw [hfail g (List.mem_cons_self g t)]
    show tryFallbacks run (acc ++ ["Fallback " ++ g ++ ": " ++ errf g]) t = _
    rw [ih (acc ++ ["Fallback " ++ g ++ ": " ++ errf g])
      (fun g' h => hfail g' (List.mem_cons_of_mem _ h))]
    rw [List.map_cons, List.append_assoc, List.singleton_append]

/-- Every member of a joined list appears verbatim inside the join. -/
lemma pyJoin_mem_decomp (sep : String) :
    ∀ (l : List String) (x : String), x ∈ l →
    ∃ a b, pyJoin sep l = a ++ (x ++ b) := by
  intro l
  induction l with
  | nil => intro x hx; exact absurd hx (List.not_mem_nil x)
  | cons y t ih =>
    intro x hx
    rcases List.mem_cons.mp hx with rfl | hx
    · cases t with
      | nil =>
        refine ⟨"", "", ?_⟩
        show x = "" ++ (x ++ "")
        rw [String.append_empty]
        rfl
      | cons z s =>
        refine ⟨"", sep ++ pyJoin sep (z :: s), ?_⟩
        show (x ++ sep) ++ pyJoin sep (z :: s) = "" ++ (x ++ (sep ++ pyJoin sep (z :: s)))
        rw [String.append_assoc]
        rfl
    · cases t with
      | nil => exact absurd hx (List.not_mem_nil x)
      | cons z s =>
        obtain ⟨a, b, hab⟩ := ih x hx
        refine ⟨y ++ sep ++ a, b, ?_⟩
        show (y ++ sep) ++ pyJoin sep (z :: s) = ((y ++ sep) ++ a) ++ (x ++ b)
        rw [hab, ← String.append_assoc]

/-- C1: when the primary model fails, `run_forecast` walks the
category's fallback list in order: the first fallback to succeed wins,
the result's `model_used` is `"<fallback> (fallback)"` and its
predictions are that fallback's own output (rounded for display); if
the primary and every fallback fail, `run_forecast` fails with a single
error that is the join of one line per attempt, and that message
contains, verbatim, `"Primary <name>: <error>"` for the primary and
`"Fallback <name>: <error>"` for each fallback attempted. -/
theorem claim_C1 (run : String → Except String (List ℚ)) (req : ForecastRequestR)
    (actual : List (Option ℚ)) (primary e : String)
    (hsel : select_model req.category req.model = .ok primary)
    (hfail : run primary = .error e) :
    (∀ (pre : List String) (f : String) (post : List String) (preds : List ℚ),
        get_fallback_list req.category = pre ++ f :: post →
        (∀ g ∈ pre, ∃ eg, run g = .error eg) →
        run f = .ok preds →
        ∃ r : ForecastResultR,
          run_forecast run req actual = .ok (r, req.product, req.year)
          ∧ r.model_used = f ++ " (fallback)"
          ∧ r.predicted = preds.map round2)
    ∧ (∀ errf : String → String,
        (∀ g ∈ get_fallback_list req.category, run g = .error (errf g)) →
        run_forecast run req actual
          = .error ("All models failed. Details: " ++ pyJoin "; "
              (("Primary " ++ primary ++ ": " ++ e)
                :: (get_fallback_list req.category).map
                    fun g => "Fallback " ++ g ++ ": " ++ errf g))
        ∧ (∃ a b, ("All models failed. Details: " ++ pyJoin "; "
              (("Primary " ++ primary ++ ": " ++ e)
                :: (get_fallback_list req.category).map
                    fun g => "Fallback " ++ g ++ ": " ++ errf g))
            = a ++ (("Primary " ++ primary ++ ": " ++ e) ++ b))
        ∧ (∀ g ∈ get_fallback_list req.category,
            ∃ a b, ("All models failed. Details: " ++ pyJoin "; "
              (("Primary " ++ primary ++ ": " ++ e)
                :: (get_fallback_list req.category).map
                    fun g' => "Fallback " ++ g' ++ ": " ++ errf g'))
            = a ++ (("Fallback " ++ g ++ ": " ++ errf g) ++ b))) := by
  constructor
  · intro pre f post preds hfb hpre hf
    refine ⟨{ product := req.product, category := req.category,
              model_used := f ++ " (fallback)", months := MONTH_LABELS,
              actual := actual, predicted := preds.map round2,
              metrics := if (calculate_metrics actual preds).MAE ≠ 0
                  ∨ actual.any (fun a => a.isSome)
                then some (calculate_metrics actual preds) else none }, ?_, rfl, rfl⟩
    simp only [run_forecast, hsel, runWithFallback, hfail]
    rw [hfb, tryFallbacks_first_success run pre _ f post preds hpre hf]
  · intro errf hall
    have hmsg : run_forecast run req actual
        = .error ("All models failed. Details: " ++ pyJoin "; "
            (("Primary " ++ primary ++ ": " ++ e)
              :: (get_fallback_list req.category).map
                  fun g => "Fallback " ++ g ++ ": " ++ errf g)) := by
      simp only [run_forecast, hsel, runWithFallback, hfail]
      rw [tryFallbacks_all_fail run errf (get_fallback_list req.category)
        ["Primary " ++ primary ++ ": " ++ e] hall]
      rfl
    refine ⟨hmsg, ?_, ?_⟩
    · obtain ⟨a, b, hab⟩ := pyJoin_mem_decomp "; "
        (("Primary " ++ primary ++ ": " ++ e)
          :: (get_fallback_list req.category).map fun g => "Fallback " ++ g ++ ": " ++ errf g)
        ("Primary " ++ primary ++ ": " ++ e) (List.mem_cons_self _ _)
      exact ⟨"All models failed. Details: " ++ a, b, by rw [hab, ← String.append_assoc]⟩
    · intro g hg
      obtain ⟨a, b, hab⟩ := pyJoin_mem_decomp "; "
        (("Primary " ++ primary ++ ": " ++ e)
          :: (get_fallback_list req.category).map fun g' => "Fallback " ++ g' ++ ": " ++ errf g')
        ("Fallback " ++ g ++ ": " ++ errf g)
        (List.mem_cons_of_mem _ (List.mem_map_of_mem _ hg))
      exact ⟨"All models failed. Details: " ++ a, b, by rw [hab, ← String.append_assoc]⟩

/-- Witness for C1: category `Cefixime` (fallbacks
`["prophet", "xgboost"]`), a runner whose `sarimax` fails and whose
`prophet` succeeds, and a runner where everything fails. -/
theorem claim_C1_witness :
    (∃ r : ForecastResultR,
      run_forecast
        (fun m => if m = "prophet" then .ok (List.replicate 12 (5 : ℚ)) else .error "boom")
        ⟨"P", "Cefixime", "auto", 2025⟩ [] = .ok (r, "P", 2025)
      ∧ r.model_used = "prophet" ++ " (fallback)"
      ∧ r.predicted = (List.replicate 12 (5 : ℚ)).map round2)
    ∧ run_forecast (fun _ => .error "E") ⟨"P", "Cefixime", "auto", 2025⟩ []
        = .error ("All models failed. Details: " ++ pyJoin "; "
            (("Primary " ++ "sarimax" ++ ": " ++ "E")
              :: (get_fallback_list "Cefixime").map fun g => "Fallback " ++ g ++ ": " ++ "E")) :=
  ⟨(claim_C1
      (fun m => if m = "prophet" then .ok (List.replicate 12 (5 : ℚ)) else .error "boom")
      ⟨"P", "Cefixime", "auto", 2025⟩ [] "sarimax" "boom" rfl rfl).1
      [] "prophet" ["xgboost"] (List.replicate 12 (5 : ℚ)) rfl
      (fun g hg => absurd hg (List.not_mem_nil g)) rfl,
   ((claim_C1 (fun _ => .error "E") ⟨"P", "Cefixime", "auto", 2025⟩ [] "sarimax" "E"
      rfl rfl).2 (fun _ => "E") (fun _ _ => rfl)).1⟩

end Pharma
